import Mathlib

/-!
Verification of the article-generation payload pipeline of the
aiwriter-backend repository.

The development shallowly embeds the Python source:

* `JVal` models JSON-like Python values (the untyped dicts the LLM returns);
  `truthy`, `jeq`, `py_slice`, `py_or`, `py_str` model Python truthiness,
  equality, slicing (`x[:n]`), short-circuit `or`, and `str()`.
* section "HTML scanning" models the regular-expression helpers
  `_extract_first_heading` / `_extract_outline` of
  `services/article_generator.py` (`re.search`, `re.finditer`, `re.sub`
  specialised to the fixed patterns used there).
* namespace `AG` embeds `services/article_generator.py`
  (`_normalize_result`, `ArticleGenerator.generate_article`,
  `ArticleGenerator.generate_images`, `_generate_payload`).
* namespace `CLI` embeds `services/simple_article_cli.py`
  (`normalize_result`, `generate_article` with its three schema modes).
* namespace `OC` embeds the result handling of `core/openai_client.run_text`.
* namespace `WH` embeds `services/webhook_service.py`
  (`_build_article_payload`, `_coerce_json`, `send_article_to_wordpress`).

External I/O (the OpenAI chat/images endpoints, the Pexels HTTP call,
the WordPress webhook POST, `json.loads` of provider text) is passed in
as explicit oracle arguments, so every function is executable and every
run of the pipeline is a concrete value.
-/

/-- JSON-like Python value: the shape of everything the model returns and of
every payload dict the pipeline builds. Object fields are listed in
insertion order with distinct keys, as in a Python dict built from JSON. -/
inductive JVal where
  | null
  | bool (b : Bool)
  | num (n : Int)
  | str (s : String)
  | arr (xs : List JVal)
  | obj (fields : List (String × JVal))

/-- Python truthiness: `None`, `False`, `0`, `""`, `[]`, and the empty dict
are falsy, everything else is truthy. -/
def truthy : JVal → Bool
  | .null => false
  | .bool b => b
  | .num n => n != 0
  | .str s => s != ""
  | .arr xs => !xs.isEmpty
  | .obj fs => !fs.isEmpty

mutual
/-- Python `==` on JSON values (structural; claims only compare strings and
lists of strings, where this coincides with CPython). -/
def jeq : JVal → JVal → Bool
  | .null, .null => true
  | .bool a, .bool b => a == b
  | .num a, .num b => a == b
  | .str a, .str b => a == b
  | .arr xs, .arr ys => jeqL xs ys
  | .obj fs, .obj gs => jeqO fs gs
  | _, _ => false
/-- Elementwise `jeq` on lists. -/
def jeqL : List JVal → List JVal → Bool
  | [], [] => true
  | x :: xs, y :: ys => jeq x y && jeqL xs ys
  | _, _ => false
/-- Fieldwise `jeq` on object field lists. -/
def jeqO : List (String × JVal) → List (String × JVal) → Bool
  | [], [] => true
  | (k, v) :: fs, (l, w) :: gs => k == l && jeq v w && jeqO fs gs
  | _, _ => false
end

/-- Python `d.get(k)` on an object field list: `none` when the key is absent. -/
def objGet : List (String × JVal) → String → Option JVal
  | [], _ => none
  | (k, v) :: fs, name => if k == name then some v else objGet fs name

/-- Python `d.get(k)` where the resulting `None` flows on as a falsy value. -/
def objGetD (fs : List (String × JVal)) (name : String) : JVal :=
  (objGet fs name).getD .null

/-- ASCII lower-casing of one character, as `str.lower()` acts on the
ASCII field names the normalizer deals with. -/
def charLower (c : Char) : Char :=
  if 'A' ≤ c && c ≤ 'Z' then Char.ofNat (c.toNat + 32) else c

/-- Python `s.lower()` (ASCII fragment). -/
def pyLower (s : String) : String := String.mk (s.data.map charLower)

/-- Python whitespace test used by `str.strip()`. -/
def pyWs (c : Char) : Bool := c.isWhitespace

/-- Python `s.strip()`: drop leading and trailing whitespace. -/
def pyStrip (s : String) : String :=
  String.mk (((s.data.dropWhile pyWs).reverse.dropWhile pyWs).reverse)

/-- One error type for everything a run can raise: `valueError` models the
normalizer's deliberate `raise ValueError(msg)`, `typeError` a `TypeError`
from slicing an unsliceable value, `keyError` an out-of-shape subscript. -/
inductive PyErr where
  | valueError (msg : String)
  | typeError
  | keyError
deriving DecidableEq, Repr

/-- Python `str(exc)` for the error message recorded on a failed Job. -/
def errStr : PyErr → String
  | .valueError msg => msg
  | .typeError => "TypeError"
  | .keyError => "KeyError"

/-- Python `x[:n]`: defined on strings and lists, a `TypeError` otherwise
(also on `True`, numbers, `None`, and dicts, as in CPython). -/
def py_slice : JVal → Nat → Except PyErr JVal
  | .str s, n => .ok (.str (String.mk (s.data.take n)))
  | .arr xs, n => .ok (.arr (xs.take n))
  | _, _ => .error .typeError

/-- Python `a or b` where evaluating `b` may raise: short-circuits on a
truthy `a`, so the right side is only reached (and can only fail) when
`a` is falsy. -/
def py_or (a : JVal) (b : Except PyErr JVal) : Except PyErr JVal :=
  if truthy a then .ok a else b

/-- Python `a or b` for two pure values. -/
def py_orV (a b : JVal) : JVal := if truthy a then a else b

/-- A single-quote character, for Python `repr` of strings. -/
def sQuote : String := String.singleton (Char.ofNat 39)

mutual
/-- Python `repr` of a JSON value (string escapes simplified: claims never
format a string containing quotes). -/
def pyRepr : JVal → String
  | .null => "None"
  | .bool true => "True"
  | .bool false => "False"
  | .num n => toString n
  | .str s => sQuote ++ s ++ sQuote
  | .arr xs => "[" ++ pyReprL xs ++ "]"
  | .obj fs => "\x7b" ++ pyReprO fs ++ "\x7d"
/-- Comma-separated `repr` of list elements. -/
def pyReprL : List JVal → String
  | [] => ""
  | [x] => pyRepr x
  | x :: xs => pyRepr x ++ ", " ++ pyReprL xs
/-- Comma-separated `repr` of dict items. -/
def pyReprO : List (String × JVal) → String
  | [] => ""
  | [(k, v)] => sQuote ++ k ++ sQuote ++ ": " ++ pyRepr v
  | (k, v) :: fs => sQuote ++ k ++ sQuote ++ ": " ++ pyRepr v ++ ", " ++ pyReprO fs
end

/-- Python `str(x)` as used in f-string interpolation: a string formats as
itself, containers as their `repr`. -/
def py_str : JVal → String
  | .str s => s
  | v => pyRepr v

/-- Python `int(s)` (sign and digits; `none` models the `ValueError`). -/
def pyInt (s : String) : Option Int :=
  let t := (pyStrip s).data
  let (neg, ds) :=
    match t with
    | '-' :: rest => (true, rest)
    | '+' :: rest => (false, rest)
    | rest => (false, rest)
  if ds.isEmpty || !ds.all (fun c => c.isDigit) then none
  else
    let n : Nat := ds.foldl (fun acc c => acc * 10 + (c.toNat - '0'.toNat)) 0
    some (if neg then -(n : Int) else (n : Int))

/-! ## HTML scanning

Executable models of the three regular-expression operations of
`article_generator.py`: `re.sub(r"<[^>]+>", "", text)` (tag stripping),
`re.search(r"<h1[^>]*>(.*?)</h1>", html, re.I | re.S)` (first-heading
search, also for `h2`), and
`re.finditer(r"<(h[23])[^>]*>(.*?)</\1>", html, re.I | re.S)` (outline
extraction). -/

/-- Split a character list at the first `>`: returns the (GT-free) segment
before it and the remainder after it. This is how `[^>]*>` resp. `[^>]+>`
consume input, since the class excludes `>` the match is forced up to the
first `>`. -/
def splitAtGt : List Char → Option (List Char × List Char)
  | [] => none
  | c :: cs =>
    if c = '>' then some ([], cs)
    else
      match splitAtGt cs with
      | some (a, r) => some (c :: a, r)
      | none => none

theorem splitAtGt_rest_lt :
    ∀ (cs : List Char) (a r : List Char), splitAtGt cs = some (a, r) → r.length < cs.length := by
  intro cs
  induction cs with
  | nil => intro a r h; simp [splitAtGt] at h
  | cons c cs ih =>
    intro a r h
    simp only [splitAtGt] at h
    split at h
    · cases h; simp
    · cases hh : splitAtGt cs with
      | none => rw [hh] at h; cases h
      | some p =>
        rw [hh] at h
        obtain ⟨a2, r2⟩ := p
        cases h
        have := ih a2 r (by rw [hh])
        simp only [List.length_cons]
        omega

/-- State machine for `re.sub(r"<[^>]+>", "", text)`: outside a tag,
characters pass through and `<` opens a pending tag; inside a pending tag,
characters accumulate until `>` closes and deletes the tag (a bare `<>`
does not match, the class needs at least one character); a pending tag
never closed by `>` is emitted verbatim, as the regex finds no match
starting at or after its `<`. -/
def stripTagsGo : Option (List Char) → List Char → List Char
  | none, [] => []
  | some buf, [] => '<' :: buf.reverse
  | none, c :: cs => if c = '<' then stripTagsGo (some []) cs else c :: stripTagsGo none cs
  | some buf, c :: cs =>
    if c = '>' then
      if buf.isEmpty then '<' :: '>' :: stripTagsGo none cs
      else stripTagsGo none cs
    else stripTagsGo (some (c :: buf)) cs

/-- Python `re.sub(r"<[^>]+>", "", text)`: delete every markup tag. -/
def stripTags (s : List Char) : List Char := stripTagsGo none s

/-- Case-insensitive prefix test on character lists (`re.I`). -/
def ciIsPrefix : List Char → List Char → Bool
  | [], _ => true
  | _ :: _, [] => false
  | p :: ps, c :: cs => charLower p == charLower c && ciIsPrefix ps cs

/-- Try to match `<tag[^>]*>` at the head of the input (case-insensitively);
on success return the input after the closing `>` of the opening tag. -/
def tryOpenTag (tag : List Char) (s : List Char) : Option (List Char) :=
  if ciIsPrefix ('<' :: tag) s then
    match splitAtGt (s.drop (tag.length + 1)) with
    | some (_, rest) => some rest
    | none => none
  else none

/-- Scan for the first `</tag>` (case-insensitively): returns the content
before it and the remainder after it, mirroring how the lazy `(.*?)` stops
at the first closing tag. -/
def findCloseTag (tag : List Char) : List Char → Option (List Char × List Char)
  | [] => none
  | c :: cs =>
    if ciIsPrefix ('<' :: '/' :: (tag ++ ['>'])) (c :: cs) then
      some ([], (c :: cs).drop (tag.length + 3))
    else
      match findCloseTag tag cs with
      | some (a, r) => some (c :: a, r)
      | none => none

/-- Python `re.search(rf"<{tag}[^>]*>(.*?)</{tag}>", s, re.I | re.S)`:
try every start position left to right; a position matches when the opening
tag parses there and a closing tag occurs later; the captured group is the
content between them. -/
def searchTag (tag : List Char) : List Char → Option (List Char)
  | [] => none
  | c :: cs =>
    match tryOpenTag tag (c :: cs) with
    | some rest =>
      match findCloseTag tag rest with
      | some (content, _) => some content
      | none => searchTag tag cs
    | none => searchTag tag cs

/-- Model of `_extract_first_heading` (identical in
`article_generator.py` and `simple_article_cli.py`): first `<h1>` else
first `<h2>` content, markup stripped and trimmed; `none` when no heading
is found or the stripped text is empty. -/
def extract_first_heading (html : String) : Option String :=
  match (match searchTag ['h', '1'] html.data with
         | some content => some content
         | none => searchTag ['h', '2'] html.data) with
  | none => none
  | some content =>
    if pyStrip (String.mk (stripTags content)) = "" then none
    else some (pyStrip (String.mk (stripTags content)))

theorem ciIsPrefix_length_le :
    ∀ (p s : List Char), ciIsPrefix p s = true → p.length ≤ s.length := by
  intro p
  induction p with
  | nil => intro s _; simp
  | cons x ps ih =>
    intro s h
    cases s with
    | nil => simp [ciIsPrefix] at h
    | cons c cs =>
      simp only [ciIsPrefix, Bool.and_eq_true] at h
      have := ih cs h.2
      simp only [List.length_cons]
      omega

theorem findCloseTag_rest_lt (tag : List Char) :
    ∀ (s : List Char) (a r : List Char), findCloseTag tag s = some (a, r) → r.length < s.length := by
  intro s
  induction s with
  | nil => intro a r h; simp [findCloseTag] at h
  | cons c cs ih =>
    intro a r h
    simp only [findCloseTag] at h
    split at h
    · rename_i hp
      cases h
      have hlen := ciIsPrefix_length_le _ _ hp
      simp only [List.length_cons, List.length_append, List.length_drop] at *
      omega
    · cases hh : findCloseTag tag cs with
      | none => rw [hh] at h; cases h
      | some p =>
        rw [hh] at h
        obtain ⟨a2, r2⟩ := p
        cases h
        have := ih a2 r (by rw [hh])
        simp only [List.length_cons]
        omega

/-- Try to match one `<(h[23])[^>]*>(.*?)</\\1>` occurrence at the head of
the input: returns the lower-cased level, the raw captured content, and the
remainder after the closing tag. -/
def tryMatchH23 (s : List Char) : Option (String × List Char × List Char) :=
  let tryLvl (d : Char) : Option (String × List Char × List Char) :=
    match tryOpenTag ['h', d] s with
    | some rest =>
      match findCloseTag ['h', d] rest with
      | some (content, r) => some (String.mk ['h', d], content, r)
      | none => none
    | none => none
  match tryLvl '2' with
  | some m => some m
  | none => tryLvl '3'

theorem tryOpenTag_rest_lt (tag : List Char) (s rest : List Char)
    (h : tryOpenTag tag s = some rest) : rest.length < s.length := by
  simp only [tryOpenTag] at h
  split at h
  · rename_i hp
    have hlen := ciIsPrefix_length_le _ _ hp
    cases hsp : splitAtGt (s.drop (tag.length + 1)) with
    | none => rw [hsp] at h; cases h
    | some p =>
      rw [hsp] at h
      obtain ⟨a2, r2⟩ := p
      cases h
      have := splitAtGt_rest_lt _ a2 rest hsp
      simp only [List.length_drop, List.length_cons, List.length_append] at *
      omega
  · cases h

theorem tryMatchH23_rest_lt (s : List Char) (lvl : String) (content r : List Char)
    (h : tryMatchH23 s = some (lvl, content, r)) : r.length < s.length := by
  have key : ∀ d rest cont,
      tryOpenTag ['h', d] s = some rest →
      findCloseTag ['h', d] rest = some (cont, r) →
      r.length < s.length := by
    intro d rest cont hopen hclose
    have h1 := tryOpenTag_rest_lt _ _ _ hopen
    have h2 := findCloseTag_rest_lt _ rest cont r hclose
    omega
  have one : ∀ d, (match tryOpenTag ['h', d] s with
      | some rest =>
        match findCloseTag ['h', d] rest with
        | some (content, r) => some (String.mk ['h', d], content, r)
        | none => none
      | none => none) = some (lvl, content, r) → r.length < s.length := by
    intro d hd
    split at hd
    next rest ho =>
      split at hd
      next cont rr hc =>
        simp only [Option.some.injEq, Prod.mk.injEq] at hd
        obtain ⟨-, -, hrr⟩ := hd
        subst hrr
        exact key d rest cont ho hc
      next hc => cases hd
    next ho => cases hd
  simp only [tryMatchH23] at h
  cases h2 : (match tryOpenTag ['h', '2'] s with
      | some rest =>
        match findCloseTag ['h', '2'] rest with
        | some (content, r) => some (String.mk ['h', '2'], content, r)
        | none => none
      | none => none) with
  | some m => rw [h2] at h; cases h; exact one '2' h2
  | none => rw [h2] at h; exact one '3' h

/-- Fuel-bounded scan behind `scanH23`: each step consumes at least one
character, so any fuel of at least the list length computes the full match
list (`scanH23F_fuel_irrel` below); the fuel only makes the recursion
structural. -/
def scanH23F : Nat → List Char → List (String × List Char)
  | 0, _ => []
  | _ + 1, [] => []
  | fuel + 1, c :: cs =>
    match tryMatchH23 (c :: cs) with
    | some (lvl, content, r) => (lvl, content) :: scanH23F fuel r
    | none => scanH23F fuel cs

/-- Python `re.finditer(r"<(h[23])[^>]*>(.*?)</\\1>", html, re.I | re.S)`:
emit each non-overlapping heading match as (lower-cased level, raw content),
resuming after the closing tag of a match and one character further after a
non-match. -/
def scanH23 (s : List Char) : List (String × List Char) := scanH23F s.length s

theorem scanH23F_fuel_irrel :
    ∀ (f1 : Nat) (s : List Char) (f2 : Nat), s.length ≤ f1 → s.length ≤ f2 →
      scanH23F f1 s = scanH23F f2 s := by
  intro f1
  induction f1 with
  | zero =>
    intro s f2 h1 _
    have : s = [] := by
      cases s with
      | nil => rfl
      | cons c cs => simp at h1
    subst this
    cases f2 <;> rfl
  | succ f ih =>
    intro s f2 h1 h2
    cases s with
    | nil => cases f2 <;> rfl
    | cons c cs =>
      cases f2 with
      | zero => simp at h2
      | succ f2p =>
        simp only [scanH23F]
        cases hm : tryMatchH23 (c :: cs) with
        | some m =>
          obtain ⟨lvl, content, r⟩ := m
          have hr := tryMatchH23_rest_lt _ _ _ _ hm
          simp only [List.length_cons] at h1 h2 hr
          show (lvl, content) :: scanH23F f r = (lvl, content) :: scanH23F f2p r
          rw [ih r f2p (by omega) (by omega)]
        | none =>
          simp only [List.length_cons] at h1 h2
          show scanH23F f cs = scanH23F f2p cs
          exact ih cs f2p (by omega) (by omega)


/-- Fold of `_extract_outline`: `h2` headings open a section, `h3`
headings append to the open section, an `h3` before any `h2` is dropped. -/
def outlineLoop (done : List (String × List String)) (cur : Option (String × List String)) :
    List (String × String) → List (String × List String)
  | [] =>
    match cur with
    | some c => done ++ [c]
    | none => done
  | (lvl, t) :: rest =>
    if lvl = "h2" then
      outlineLoop (match cur with | some c => done ++ [c] | none => done) (some (t, [])) rest
    else
      match cur with
      | some (h2, h3s) => outlineLoop done (some (h2, h3s ++ [t])) rest
      | none => outlineLoop done none rest

/-- Model of `article_generator._extract_outline`: collect the `h2`/`h3`
headings (markup stripped, trimmed, empties skipped) into
`{"sections": [{"h2": ..., "h3s": [...]}, ...]}`. -/
def extract_outline (html : String) : JVal :=
  let items :=
    (scanH23 html.data).filterMap (fun m =>
      let text := pyStrip (String.mk (stripTags m.2))
      if text = "" then none else some (m.1, text))
  let sections := outlineLoop [] none items
  .obj [("sections", .arr (sections.map (fun s =>
    .obj [("h2", .str s.1), ("h3s", .arr (s.2.map .str))])))]

/-! ## article_generator.py -/

namespace AG

/-- The `lower_map` lookup of `_normalize_result`: the dict comprehension
maps each lower-cased key to the key, later keys overwriting earlier ones,
so a name resolves to the value of the last key whose lower-casing matches. -/
def get_ci1 (c : List (String × JVal)) (name : String) : Option JVal :=
  ((c.filter (fun kv => pyLower kv.1 == pyLower name)).getLast?).map (·.2)

/-- The `get_ci(*names)` helper: first name that resolves wins; the value is
returned even when it is `None` (the check is key presence, not truthiness). -/
def get_ci (c : List (String × JVal)) : List String → Option JVal
  | [] => none
  | n :: ns =>
    match get_ci1 c n with
    | some v => some v
    | none => get_ci c ns

/-- The wrapper-unwrap loop of `_normalize_result`: scan the fixed key list
in order and descend into the first dict-typed match, at most once
(`break` after the first hit). -/
def find_wrapped : List String → List (String × JVal) → List (String × JVal)
  | [], fs => fs
  | w :: ws, fs =>
    match objGet fs w with
    | some (.obj inner) => inner
    | _ => find_wrapped ws fs

/-- The fixed, ordered wrapper-key candidates. -/
def wrapperKeys : List String := ["article", "result", "data", "payload", "content"]

/-- One unwrap step over the candidate wrapper keys. -/
def unwrap (fs : List (String × JVal)) : List (String × JVal) := find_wrapped wrapperKeys fs

/-- Title fallback of `_normalize_result` line 131:
`_extract_first_heading(article_html) or topic_fallback`. -/
def title_fallback (h tf : String) : JVal :=
  match extract_first_heading h with
  | some t => .str t
  | none => .str tf

/-- Lines 124, 130-131: the resolved title; the `get_ci` result is used when
truthy, else the heading-or-topic fallback. -/
def resolve_title (title0 : Option JVal) (h tf : String) : JVal :=
  match title0 with
  | some t => if truthy t then t else title_fallback h tf
  | none => title_fallback h tf

/-- Lines 133-135 of `_normalize_result`: resolve `meta` to a dict, a
non-dict value collapsing to the empty dict. -/
def resolve_meta_obj (c : List (String × JVal)) : List (String × JVal) :=
  match get_ci c ["meta", "metadata"] with
  | some (.obj m) => m
  | _ => []

/-- Lines 133-139 of `_normalize_result`: resolve `meta`, take
`meta_obj.get("title") or title[:60]` and
`meta_obj.get("description") or f"Erfahren Sie alles über {title}."`, then
build `meta` with the `[:60]` / `[:155]` truncations (slicing a truthy
non-sliceable value raises, as in Python). -/
def build_meta (c : List (String × JVal)) (title : JVal) : Except PyErr (JVal × JVal) :=
  let meta_obj : List (String × JVal) := resolve_meta_obj c
  match py_or (objGetD meta_obj "title") (py_slice title 60) with
  | .error e => .error e
  | .ok meta_title =>
    let meta_description :=
      py_orV (objGetD meta_obj "description")
        (.str ("Erfahren Sie alles über " ++ py_str title ++ "."))
    match py_slice meta_title 60 with
    | .error e => .error e
    | .ok mt =>
      match py_slice meta_description 155 with
      | .error e => .error e
      | .ok md => .ok (mt, md)

/-- Lines 141-143: `faq` must be a list, anything else becomes `[]`. -/
def resolve_faq (c : List (String × JVal)) : JVal :=
  match get_ci c ["faq", "faqs"] with
  | some (.arr xs) => .arr xs
  | _ => .arr []

/-- Lines 145-153: keep a dict-typed `schema`, otherwise synthesize the
minimal structured-data object (headline is the resolved title value,
`datePublished` the current timestamp). -/
def resolve_schema (c : List (String × JVal)) (title : JVal) (language now : String) : JVal :=
  match get_ci c ["schema", "jsonld"] with
  | some (.obj s) => .obj s
  | _ =>
    .obj [("@context", .str "https://schema.org"),
          ("@type", .str "Article"),
          ("headline", title),
          ("datePublished", .str now),
          ("inLanguage", .str language)]

/-- The returned canonical bundle dict (lines 157-164). -/
def mkBundle (title : JVal) (h : String) (mt md faq schema outline : JVal) : JVal :=
  .obj [("title", title),
        ("article_html", .str h),
        ("meta", .obj [("title", mt), ("description", md)]),
        ("faq", faq),
        ("schema", schema),
        ("outline", outline)]

/-- Model of `article_generator._normalize_result` (lines 105-164). `now`
stands for `datetime.now(timezone.utc).isoformat()` at the moment the
schema fallback is synthesized. -/
def normalize_result (raw : JVal) (topic_fallback language now : String) : Except PyErr JVal :=
  match raw with
  | .obj rawFields =>
    let c := unwrap rawFields
    let title0 := get_ci c ["title", "titel", "headline"]
    let html0 := get_ci c ["article_html", "html", "content"]
    match html0 with
    | some (.str h) =>
      if pyStrip h = "" then .error (.valueError "Missing or invalid 'article_html'.")
      else
        let title : JVal := resolve_title title0 h topic_fallback
        match build_meta c title with
        | .error e => .error e
        | .ok (mt, md) =>
          .ok (mkBundle title h mt md (resolve_faq c)
                (resolve_schema c title language now) (extract_outline h))
    | _ => .error (.valueError "Missing or invalid 'article_html'.")
  | _ => .error (.valueError "Model did not return a JSON object.")

end AG

/-- Python `needle in hay` on strings: contiguous substring test. -/
def strContainsGo (needle : List Char) : List Char → Bool
  | [] => needle.isEmpty
  | c :: cs => needle.isPrefixOf (c :: cs) || strContainsGo needle cs

/-- Python `needle in hay` on strings. -/
def strContains (hay needle : String) : Bool := strContainsGo needle.data hay.data

/-! ## simple_article_cli.py -/

namespace CLI

/-- Python `d[k] = v`: replace in place, or append a new key at the end. -/
def objSet : List (String × JVal) → String → JVal → List (String × JVal)
  | [], k, w => [(k, w)]
  | (k0, v0) :: fs, k, w =>
    if k0 == k then (k, w) :: fs else (k0, v0) :: objSet fs k w

/-- Python `d[k] = v` on a JSON value known to be a dict. -/
def jSet (v : JVal) (k : String) (w : JVal) : JVal :=
  match v with
  | .obj fs => .obj (objSet fs k w)
  | other => other

/-- Model of `simple_article_cli.normalize_result` (lines 78-165). It
differs from the backend variant: more synonyms, a meta dict assembled
from flat `meta_title`/`meta_description` keys, a dict-shaped `faq`
unwrapped via `items`/`list`/`entries`, a meta-title fallback in the title
chain, no second truncation of meta fields, and no outline. -/
def normalize_result (raw : JVal) (topic_fallback language now : String) : Except PyErr JVal :=
  match raw with
  | .obj rawFields =>
    let c := AG.unwrap rawFields
    let title0 := (AG.get_ci c ["title", "titel", "headline", "article_title"]).getD .null
    let article_html :=
      (AG.get_ci c ["article_html", "html", "content_html", "content", "article"]).getD .null
    let meta : List (String × JVal) :=
      match AG.get_ci c ["meta", "metadata"] with
      | some (.obj m) => m
      | _ =>
        let mt := (AG.get_ci c ["meta_title", "seo_title", "headline"]).getD .null
        let md := (AG.get_ci c ["meta_description", "seo_description", "description"]).getD .null
        (if truthy mt then [("title", mt)] else []) ++
          (if truthy md then [("description", md)] else [])
    let faq0 := (AG.get_ci c ["faq", "faqs", "faq_list"]).getD .null
    let faq1 :=
      match faq0 with
      | .obj fs =>
        py_orV (objGetD fs "items") (py_orV (objGetD fs "list") (py_orV (objGetD fs "entries") (.arr [])))
      | v => v
    let faq :=
      match faq1 with
      | .arr xs => JVal.arr xs
      | _ => .arr []
    let schema0 :=
      match AG.get_ci c ["schema", "jsonld", "json_ld", "structured_data", "schema_org"] with
      | some (.obj s) => JVal.obj s
      | _ => .obj []
    let title1 :=
      if truthy title0 then title0
      else
        match objGet meta "title" with
        | some (.str mt) => if pyStrip mt != "" then .str (pyStrip mt) else title0
        | _ => title0
    let title2 :=
      if truthy title1 then title1
      else
        match article_html with
        | .str h =>
          (match extract_first_heading h with
           | some t => JVal.str t
           | none => .null)
        | _ => title1
    let title := if truthy title2 then title2 else .str topic_fallback
    match article_html with
    | .str h =>
      if pyStrip h = "" then .error (.valueError "Missing or invalid 'article_html'.")
      else
        let mt0 := objGetD meta "title"
        let md0 := objGetD meta "description"
        let mtRes : Except PyErr JVal :=
          match mt0 with
          | .str s => if pyStrip s != "" then .ok (.str s) else py_slice title 60
          | _ => py_slice title 60
        match mtRes with
        | .error e => .error e
        | .ok meta_title =>
          let meta_desc :=
            match md0 with
            | .str s =>
              if pyStrip s != "" then JVal.str s
              else .str (String.mk (("Erfahren Sie alles über " ++ py_str title ++
                ". Umfassende Informationen und praktische Tipps.").data.take 155))
            | _ => .str (String.mk (("Erfahren Sie alles über " ++ py_str title ++
                ". Umfassende Informationen und praktische Tipps.").data.take 155))
          let schema :=
            if truthy schema0 then schema0
            else
              .obj [("@context", .str "https://schema.org"),
                    ("@type", .str "Article"),
                    ("headline", title),
                    ("datePublished", .str now),
                    ("inLanguage", .str language)]
          .ok (.obj [("title", title),
                     ("article_html", .str h),
                     ("meta", .obj [("title", meta_title), ("description", meta_desc)]),
                     ("faq", faq),
                     ("schema", schema)])
    | _ => .error (.valueError "Missing or invalid 'article_html'.")
  | _ => .error (.valueError "Model did not return a JSON object.")

/-- Model of `simple_article_cli.generate_article` (lines 292-416). The
schema mode is a configuration argument, not a fallback chain: modes
`json_schema` and `json_object` make one request each and raise on an
empty/unparseable JSON body; only mode `none` falls back, from JSON
parsing to a single plain-HTML request. `parsed1` is the `json.loads`
result of the first completion (`none` = `JSONDecodeError`), `content2`
the body of the plain-HTML fallback completion. -/
def cli_text_bundle (schema_mode topic language : String)
    (parsed1 : Option JVal) (content2 : String) (now : String) : Except PyErr JVal :=
  if schema_mode == "json_schema" then
    let raw := parsed1.getD (.obj [])
    if !truthy raw then .error (.valueError "Empty JSON in schema mode.")
    else normalize_result raw topic language now
  else if schema_mode == "json_object" then
    let raw := parsed1.getD (.obj [])
    if !truthy raw then .error (.valueError "Empty JSON in json_object mode.")
    else normalize_result raw topic language now
  else
    let attempt : Except PyErr JVal :=
      match parsed1 with
      | some raw => normalize_result raw topic language now
      | none => .error (.valueError "JSONDecodeError")
    match attempt with
    | .ok d => .ok d
    | .error _ =>
      let html := content2
      if !strContains (pyLower html) "<h" then
        .error (.valueError "Plain HTML fallback invalid/empty.")
      else
        let title_guess := (extract_first_heading html).getD topic
        .ok (.obj [("title", .str title_guess),
                   ("article_html", .str html),
                   ("meta", .obj [("title", .str (String.mk (title_guess.data.take 60))),
                                  ("description", .str (String.mk (("Erfahren Sie alles über " ++
                                    title_guess ++
                                    ". Umfassende Informationen und praktische Tipps.").data.take 155)))]),
                   ("faq", .arr []),
                   ("schema", .obj [("@context", .str "https://schema.org"),
                                    ("@type", .str "Article"),
                                    ("headline", .str title_guess),
                                    ("datePublished", .str now),
                                    ("inLanguage", .str language)])])

/-- The image tail of `generate_article` (lines 401-416) on top of the
text-tier result. -/
def generate_article (schema_mode topic language : String)
    (parsed1 : Option JVal) (content2 : String)
    (include_images : Bool) (imageResult : Except PyErr (Option String))
    (now : String) : Except PyErr JVal :=
  match cli_text_bundle schema_mode topic language parsed1 content2 now with
  | .error e => .error e
  | .ok data =>
    if include_images then
      match imageResult with
      | .ok (some url) => .ok (if url != "" then jSet data "featured_image" (.str url) else data)
      | _ => .ok data
    else .ok data

end CLI

/-! ## core/openai_client.py -/

namespace OC

/-- Python `a or b` on an optional string (`message.content or ""`). -/
def strOr (a : Option String) (b : String) : String :=
  match a with
  | some s => if s == "" then b else s
  | none => b

/-- Model of the result handling of `openai_client.run_text` (lines 80-96):
the provider call either raises (the exception is logged and re-raised
unchanged) or yields `response.choices[0].message.content`, an optional
string; the function returns `content or ""`, so an empty completion
becomes the empty string, not an error. -/
def run_text (providerResult : Except PyErr (Option String)) : Except PyErr String :=
  match providerResult with
  | .error e => .error e
  | .ok content => .ok (strOr content "")

end OC

/-! ## Image sourcing (article_generator.py lines 212-265, 446-479) -/

namespace AG

/-- Outcomes of the three external calls image sourcing makes: the
`run_text` call deriving a search phrase, the Pexels HTTP search (its
result URL, `none` covering non-200, no photos, and exceptions), and the
OpenAI image generation (which may raise or return an empty URL). -/
structure ImageOracle where
  imageTopic : Except PyErr (Option String)
  pexels : Option String
  genImage : Except PyErr (Option String)

/-- Python `s.strip(chars)` for a one-character set. -/
def pyStripChar (ch : Char) (s : String) : String :=
  String.mk (((s.data.dropWhile (· == ch)).reverse.dropWhile (· == ch)).reverse)

/-- Model of `get_image_topic_from_openai`: on success the completion is
trimmed of whitespace, double quotes, then single quotes; any exception
falls back to the topic itself. -/
def get_image_topic_from_openai (topic : String) (r : Except PyErr (Option String)) : String :=
  match OC.run_text r with
  | .ok response => pyStripChar (Char.ofNat 39) (pyStripChar '"' (pyStrip response))
  | .error _ => topic

/-- Model of `ArticleGenerator.generate_images` (lines 446-479): nothing
for a non-positive request; otherwise derive a search phrase, try Pexels
first (a truthy URL is returned alone, `urls[:1]`), then fall back to one
AI-generated image, swallowing generation failures; at most one URL is
ever returned. -/
def generate_images (topic : String) (requested_images : Int) (o : ImageOracle) : List String :=
  if requested_images ≤ 0 then []
  else
    let _image_topic := get_image_topic_from_openai topic o.imageTopic
    match o.pexels with
    | some url =>
      if url != "" then [url].take 1
      else genFallback o
    | none => genFallback o
where
  /-- The OpenAI image fallback after Pexels found nothing. -/
  genFallback (o : ImageOracle) : List String :=
    match o.genImage with
    | .ok (some url) => (if url != "" then [url] else []).take 1
    | .ok none => ([] : List String).take 1
    | .error _ => ([] : List String).take 1

end AG

/-! ## Persistence records (db/base.py, the fields the pipeline touches) -/

/-- Article lifecycle status (`ArticleStatus`). -/
inductive AStatus where
  | draft
  | ready
  | failed
deriving DecidableEq, Repr

/-- The Job columns read or written by the pipeline. JSON columns and
nullable strings are `Option`; `user_images` is modelled as an optional
list of URL strings (the shape the API stores). -/
structure JobRec where
  topic : String
  language : Option String := none
  length : Option String := none
  context : Option String := none
  include_faq : Bool := true
  include_cta : Bool := false
  cta_url : Option String := none
  template : Option String := none
  style_preset : Option String := none
  user_images : Option (List String) := none
  images : Bool := false
  requested_images : Option Int := some 0
  status : String := "pending"
  error : Option String := none
  finished : Bool := false

/-- The Article columns the pipeline and the webhook service touch.
Values copied from the model payload keep their JSON shape. -/
structure ArticleRec where
  topic : JVal
  language : String
  status : AStatus
  article_html : JVal := .null
  meta_title : JVal := .null
  meta_description : JVal := .null
  faq_json : JVal := .null
  schema_json : JVal := .null
  outline_json : JVal := .null
  image_urls_json : JVal := .null
  image_cost_cents : Int := 0

/-- Test for the Python `is None` check on a JSON value. -/
def isNull : JVal → Bool
  | .null => true
  | _ => false

/-- Python truthiness of a nullable string column. -/
def optTruthy : Option String → Bool
  | some s => s != ""
  | none => false

/-! ## webhook_service.py -/

namespace WH

/-- Model of `WebhookService._coerce_json`: `None` becomes the default,
lists and dicts pass through, a string is `json.loads`-parsed (`loads` is
the parser oracle; a parse failure, like any other type, yields the
default). -/
def coerce_json (loads : String → Option JVal) (value d : JVal) : JVal :=
  match value with
  | .null => d
  | .arr xs => .arr xs
  | .obj fs => .obj fs
  | .str s => (loads s).getD d
  | _ => d

/-- The filter `[url for url in content_image_urls if url != featured_image]`
(iterating a string yields its characters, as in Python). -/
def filterNotFeatured (featured : JVal) : JVal → JVal
  | .arr xs => .arr (xs.filter (fun u => !jeq u featured))
  | .str s => .arr ((s.data.map (fun ch => JVal.str (String.singleton ch))).filter
      (fun u => !jeq u featured))
  | other => other

/-- The override dict of `_build_article_payload` line 133:
`payload_override or \x7b\x7d`. -/
def wp_pf (payload_override : Option JVal) : List (String × JVal) :=
  match payload_override with
  | some (.obj fs) => fs
  | _ => []

/-- Line 136: the title fallback chain. -/
def wp_title (pf : List (String × JVal)) (article : ArticleRec) : JVal :=
  py_orV (objGetD pf "title") (py_orV article.topic (.str "Untitled Article"))

/-- Lines 139-145: the content fallback chain. -/
def wp_content (pf : List (String × JVal)) (article : ArticleRec) : JVal :=
  py_orV (objGetD pf "article_html")
    (py_orV (objGetD pf "content")
      (py_orV (objGetD pf "content_html") (py_orV article.article_html (.str ""))))

/-- Line 148: the dict-typed `meta` of the override, else empty. -/
def wp_meta (pf : List (String × JVal)) : List (String × JVal) :=
  match objGet pf "meta" with
  | some (.obj m) => m
  | _ => []

/-- Lines 150-155: the description fallback chain (never raises: the final
fallback is a sliced f-string). -/
def wp_meta_description (pf : List (String × JVal)) (article : ArticleRec) (title : JVal) : JVal :=
  py_orV (objGetD (wp_meta pf) "description")
    (py_orV (objGetD pf "meta_description")
      (py_orV article.meta_description
        (.str (String.mk (("Erfahren Sie mehr über " ++ py_str title ++ ".").data.take 155)))))

/-- Lines 158, 161: the dispatched `faq`: a list-typed override wins, else
the coerced Article column. -/
def wp_faq (loads : String → Option JVal) (pf : List (String × JVal))
    (article : ArticleRec) : JVal :=
  match objGet pf "faq" with
  | some (.arr xs) => .arr xs
  | _ => coerce_json loads article.faq_json (.arr [])

/-- Lines 159, 162-166: the dispatched `schema_data`. -/
def wp_schema (loads : String → Option JVal) (pf : List (String × JVal))
    (article : ArticleRec) : JVal :=
  match py_orV (objGetD pf "schema") (objGetD pf "schema_data") with
  | .obj fs => JVal.obj fs
  | .arr xs => JVal.arr xs
  | _ => coerce_json loads article.schema_json (.obj [])

/-- Line 169: `payload.get("featured_image") or None`. -/
def wp_featured0 (pf : List (String × JVal)) : JVal :=
  if truthy (objGetD pf "featured_image") then objGetD pf "featured_image" else .null

/-- Line 170: `payload.get("image_urls") or []`. -/
def wp_content0 (pf : List (String × JVal)) : JVal :=
  if truthy (objGetD pf "image_urls") then objGetD pf "image_urls" else .arr []

/-- Lines 172-174: drop the featured URL from the override content list. -/
def wp_content1 (pf : List (String × JVal)) : JVal :=
  if truthy (wp_featured0 pf) && truthy (wp_content0 pf) then
    filterNotFeatured (wp_featured0 pf) (wp_content0 pf)
  else wp_content0 pf

/-- Lines 176-185: when no truthy override featured image exists, derive
featured/content from the Article row's stored image list (one image →
featured only; several → first featured, the rest minus the featured).
Subscripting a non-list raises, as `image_urls[0]` would. -/
def wp_images (loads : String → Option JVal) (article : ArticleRec)
    (pf : List (String × JVal)) : Except PyErr (JVal × JVal) :=
  if isNull (wp_featured0 pf) then
    match coerce_json loads article.image_urls_json (.arr []) with
    | .arr [u] => .ok (u, .arr [])
    | .arr (u :: rest) => .ok (u, .arr (rest.filter (fun x => !jeq x u)))
    | .arr [] => .ok (.null, wp_content1 pf)
    | .obj [] => .ok (.null, wp_content1 pf)
    | .obj _ => .error .keyError
    | .str s =>
      (match s.data with
       | [ch] => .ok (.str (String.singleton ch), .arr [])
       | ch :: rest => .ok (.str (String.singleton ch),
           (filterNotFeatured (.str (String.singleton ch)) (.str (String.mk rest))))
       | [] => .ok (.null, wp_content1 pf))
    | _ => .error .typeError
  else .ok (wp_featured0 pf, wp_content1 pf)

/-- Model of `WebhookService._build_article_payload` (lines 132-206): the
WordPress payload assembled from the override payload dict with per-field
fallbacks to the Article columns. Raises exactly where Python would
(slicing a truthy non-sliceable title, subscripting a non-list
`image_urls`); the meta-title chain is evaluated before the image logic,
as in the source. -/
def build_article_payload (loads : String → Option JVal) (article : ArticleRec)
    (payload_override : Option JVal) : Except PyErr JVal :=
  let pf : List (String × JVal) := wp_pf payload_override
  match py_or (objGetD (wp_meta pf) "title")
      (py_or (objGetD pf "meta_title")
        (py_or article.meta_title (py_slice (wp_title pf article) 60))) with
  | .error e => .error e
  | .ok meta_title =>
    match wp_images loads article pf with
    | .error e => .error e
    | .ok (featured, contentImgs) =>
      .ok (.obj [("title", wp_title pf article),
                 ("content", wp_content pf article),
                 ("meta_title", meta_title),
                 ("meta_description", wp_meta_description pf article (wp_title pf article)),
                 ("faq", wp_faq loads pf article),
                 ("schema_data", wp_schema loads pf article),
                 ("featured_image", featured),
                 ("image_urls", contentImgs),
                 ("category", (objGet pf "category").getD .null),
                 ("tags", (objGet pf "tags").getD .null),
                 ("include_faq", (objGet pf "include_faq").getD (.bool true))])

/-- WordPress POST outcome: a 200 with an optional `post_id`, a non-200
response, or an exception while posting. -/
inductive WpOutcome where
  | success (post_id : Option Int)
  | httpFail
  | raised
deriving DecidableEq, Repr

/-- Result of one `send_article_to_wordpress` run: the boolean it returns,
the Article row afterwards, and the payload it handed to `requests.post`
(`none` when no POST was attempted). -/
structure SendResult where
  ok : Bool
  article : Option ArticleRec
  sent : Option JVal

/-- Lines 85-90: store a truthy WordPress post id into `outline_json`. -/
def with_post_id (article : ArticleRec) (post_id : Option Int) : ArticleRec :=
  match post_id with
  | some pid =>
    if pid != 0 then
      match article.outline_json with
      | .obj fs =>
        { article with outline_json := .obj (CLI.objSet fs "wordpress_post_id" (.num pid)) }
      | _ => { article with outline_json := .obj [("wordpress_post_id", .num pid)] }
    else article
  | none => article

/-- Model of `WebhookService.send_article_to_wordpress` (lines 36-117):
look up the rows, build the payload, POST it; on 200 store the post id in
`outline_json` and set the Article `ready`, on a non-200 or an exception
set it `failed`; always swallow the failure into a `False` return. -/
def send_article_to_wordpress (loads : String → Option JVal)
    (article? : Option ArticleRec) (jobExists siteExists : Bool)
    (payload_override : Option JVal) (wp : WpOutcome) : SendResult :=
  match article? with
  | none => ⟨false, none, none⟩
  | some article =>
    if !jobExists then ⟨false, some article, none⟩
    else if !siteExists then ⟨false, some article, none⟩
    else
      match build_article_payload loads article payload_override with
      | .error _ => ⟨false, some { article with status := .failed }, none⟩
      | .ok article_data =>
        match wp with
        | .success post_id =>
          ⟨true, some { with_post_id article post_id with status := .ready }, some article_data⟩
        | .httpFail => ⟨false, some { article with status := .failed }, some article_data⟩
        | .raised => ⟨false, some { article with status := .failed }, some article_data⟩

end WH

/-! ## ArticleGenerator.generate_article (article_generator.py lines 275-444) -/

namespace AG

/-- Python `payload[k]` / `payload.get(k)` on the normalized bundle (the
bundle always carries the accessed keys, so the `KeyError` case cannot
arise and absent keys read as `None`). -/
def bGet (v : JVal) (k : String) : JVal :=
  match v with
  | .obj fs => (objGet fs k).getD .null
  | _ => .null

/-- The CTA block appended when `job.include_cta and job.cta_url` (line 335),
with the CTA URL interpolated. -/
def cta_html (url : String) : String :=
  "<div class=\"aiwriter-cta\" style=\"margin: 30px 0; padding: 20px; background: #f5f5f5; border-radius: 5px; text-align: center;\"><a href=\"" ++
    url ++
    "\" class=\"button\" style=\"display: inline-block; padding: 12px 24px; background: #0073aa; color: white; text-decoration: none; border-radius: 3px;\">Jetzt kontaktieren</a></div>"

/-- The image presentation split (lines 371-389): one image becomes the
featured image with an empty content list; several images put the first as
featured and the rest (`image_urls[1:]`, order preserved) in the content
list; none leaves both empty. Returns (featured_image, image_urls) as
written into the payload. -/
def image_split : List String → JVal × JVal
  | [] => (.null, .arr [])
  | [u] => (.str u, .arr [])
  | u :: rest => (.str u, .arr (rest.map .str))

/-- Model of `_generate_payload` (lines 427-444): one structured-output
call (`raw` is its outcome; the call itself is external I/O) followed by
`_normalize_result`. -/
def generate_payload (raw : Except PyErr JVal) (topic language now : String) : Except PyErr JVal :=
  match raw with
  | .error e => .error e
  | .ok r => normalize_result r topic language now

/-- Lines 339-347: the category resolved from `job.template` (an `int()`
parse with `None` on failure). -/
def category_value (job : JobRec) : JVal :=
  if optTruthy job.template then
    (match pyInt (job.template.getD "") with
     | some n => JVal.num n
     | none => .null)
  else .null

/-- Line 347: the tags resolved from `job.style_preset`. -/
def tags_value (job : JobRec) : JVal :=
  if optTruthy job.style_preset then JVal.str (job.style_preset.getD "") else .null

/-- Lines 350-366: the resolved image list: verbatim user images when a
non-empty list was supplied, else AI sourcing when requested, else none. -/
def resolved_image_urls (job : JobRec) (imgO : ImageOracle) : List String :=
  match job.user_images with
  | some (u :: us) => u :: us
  | _ =>
    if job.images &&
        (match job.requested_images with
         | some n => n != 0 && n > 0
         | none => false) then
      generate_images job.topic (job.requested_images.getD 0) imgO
    else []

/-- Lines 356, 362, 366: the recorded image cost in cents (user images are
free, AI images cost 4 each). -/
def image_cost (job : JobRec) (image_urls : List String) : Int :=
  match job.user_images with
  | some (_ :: _) => 0
  | _ =>
    if job.images &&
        (match job.requested_images with
         | some n => n != 0 && n > 0
         | none => false) then
      4 * image_urls.length
    else 0

/-- Lines 320-389: everything between a successful `_generate_payload` and
the final status flip: copy the bundle onto the Article row (FAQ cleared
when not requested), append the CTA to the payload only, attach
category/tags, resolve images, and write the featured/content split into
the payload. Returns the updated Article row and the final payload dict. -/
def assemble (job : JobRec) (article0 : ArticleRec) (payload : JVal)
    (imgO : ImageOracle) : ArticleRec × JVal :=
  let article1 :=
    { article0 with
      topic := bGet payload "title"
      article_html := bGet payload "article_html"
      meta_title := bGet (bGet payload "meta") "title"
      meta_description := bGet (bGet payload "meta") "description"
      faq_json := if job.include_faq then bGet payload "faq" else .arr []
      schema_json := bGet payload "schema"
      outline_json := bGet payload "outline" }
  let payload2 :=
    if job.include_cta && optTruthy job.cta_url then
      CLI.jSet payload "article_html"
        (.str (py_str (bGet payload "article_html") ++ "\n\n" ++
          cta_html (job.cta_url.getD "")))
    else payload
  let payload3 := CLI.jSet payload2 "category" (category_value job)
  let payload4 := CLI.jSet payload3 "tags" (tags_value job)
  let image_urls := resolved_image_urls job imgO
  let article2 :=
    { article1 with
      image_urls_json := .arr (image_urls.map .str)
      image_cost_cents := image_cost job image_urls }
  (article2,
   CLI.jSet (CLI.jSet payload4 "featured_image" (image_split image_urls).1)
     "image_urls" (image_split image_urls).2)

/-- The Article row created at the start of a run (lines 301-310). -/
def article0_of (job : JobRec) : ArticleRec :=
  { topic := .str job.topic, language := job.language.getD "de", status := .draft }

/-- Result of one `ArticleGenerator.generate_article` run: the returned
boolean, the final committed Job and Article rows, the committed Job
status at the moment the webhook service was invoked (`none` when it never
was), and the payload the webhook POSTed. -/
structure PipeResult where
  returned : Bool
  job : Option JobRec
  article : Option ArticleRec
  jobStatusAtDispatch : Option String
  dispatched : Option JVal

/-- Model of `ArticleGenerator.generate_article` (lines 275-425).
Arguments model the run's external inputs: whether the API key is
configured, the Job row (and whether its Site and License rows resolve),
the structured-output completion `raw`, the image-sourcing oracle, the
`json.loads` oracle of the webhook service, the WordPress POST outcome,
and the `now` timestamp. Any exception inside the `try` rolls back to the
committed `processing`/`draft` state and marks Job and Article failed;
after `_generate_payload` succeeds no step of the assembly can raise, so
the success path always commits `ready`/`completed` and then dispatches. -/
def pipeline_generate_article (apiKey : Bool) (job? : Option JobRec)
    (siteExists licenseExists : Bool) (raw : Except PyErr JVal)
    (imgO : ImageOracle) (loads : String → Option JVal) (wp : WH.WpOutcome)
    (now : String) : PipeResult :=
  if !apiKey then ⟨false, job?, none, none, none⟩
  else
    match job? with
    | none => ⟨false, none, none, none, none⟩
    | some job =>
      if !siteExists then ⟨false, some job, none, none, none⟩
      else if !licenseExists then ⟨false, some job, none, none, none⟩
      else
        let job1 := { job with status := "processing" }
        let article0 := article0_of job
        match generate_payload raw job.topic (job.language.getD "de") now with
        | .error e =>
          ⟨false,
           some { job1 with status := "failed", error := some (errStr e), finished := true },
           some { article0 with status := .failed },
           none, none⟩
        | .ok payload =>
          let ap := assemble job article0 payload imgO
          let article3 := { ap.1 with status := .ready }
          let job2 := { job1 with status := "completed", finished := true }
          let send := WH.send_article_to_wordpress loads (some article3) true true (some ap.2) wp
          ⟨true, some job2, send.article, some job2.status, send.sent⟩

end AG

/-! ## Supporting lemmas -/

/-- Projection: the `article_html` field of a successful normalization. -/
def exHtml : Except PyErr JVal → Option String
  | .ok (.obj fs) =>
    match objGet fs "article_html" with
    | some (.str s) => some s
    | _ => none
  | _ => none

/-- Projection: did the computation succeed. -/
def exOk : Except PyErr JVal → Bool
  | .ok _ => true
  | .error _ => false

/-- Projection: the deliberate-`ValueError` test on a result. -/
def isValueError : Except PyErr JVal → Bool
  | .error (.valueError _) => true
  | _ => false

theorem objGet_objSet_self (fs : List (String × JVal)) (k : String) (w : JVal) :
    objGet (CLI.objSet fs k w) k = some w := by
  induction fs with
  | nil => simp [CLI.objSet, objGet]
  | cons kv fs ih =>
    obtain ⟨k0, v0⟩ := kv
    by_cases h : k0 = k
    · subst h; simp [CLI.objSet, objGet]
    · simp only [CLI.objSet, objGet]
      rw [if_neg (by simpa using h)]
      simp only [objGet]
      rw [if_neg (by simpa using h)]
      exact ih

theorem objGet_objSet_ne (fs : List (String × JVal)) (k k2 : String) (w : JVal)
    (h : k ≠ k2) : objGet (CLI.objSet fs k w) k2 = objGet fs k2 := by
  induction fs with
  | nil => simp [CLI.objSet, objGet, h]
  | cons kv fs ih =>
    obtain ⟨k0, v0⟩ := kv
    by_cases h0 : k0 = k
    · subst h0
      simp only [CLI.objSet, beq_self_eq_true, if_pos]
      simp only [objGet]
      rw [if_neg (by simpa using h), if_neg (by simpa using h)]
    · simp only [CLI.objSet]
      rw [if_neg (by simpa using h0)]
      simp only [objGet]
      by_cases h2 : k0 = k2
      · subst h2; simp
      · rw [if_neg (by simpa using h2), if_neg (by simpa using h2)]
        exact ih

theorem py_slice_idem (v w : JVal) (n : Nat) (h : py_slice v n = .ok w) :
    py_slice w n = .ok w := by
  cases v with
  | str s =>
    simp only [py_slice, Except.ok.injEq] at h
    subst h
    simp [py_slice, List.take_take]
  | arr xs =>
    simp only [py_slice, Except.ok.injEq] at h
    subst h
    simp [py_slice, List.take_take]
  | null => simp [py_slice] at h
  | bool b => simp [py_slice] at h
  | num m => simp [py_slice] at h
  | obj fs => simp [py_slice] at h

theorem py_slice_truthy (v w : JVal) (n : Nat) (hn : 1 ≤ n)
    (h : py_slice v n = .ok w) (ht : truthy v = true) : truthy w = true := by
  cases v with
  | str s =>
    simp only [py_slice, Except.ok.injEq] at h
    subst h
    simp only [truthy, bne_iff_ne, ne_eq] at ht ⊢
    intro hc
    apply ht
    have hd := congrArg String.data hc
    simp only at hd
    cases s with
    | mk d =>
      cases d with
      | nil => rfl
      | cons c cs =>
        cases n with
        | zero => omega
        | succ m => simp [List.take] at hd
  | arr xs =>
    simp only [py_slice, Except.ok.injEq] at h
    subst h
    cases xs with
    | nil => simp [truthy] at ht
    | cons x xs =>
      cases n with
      | zero => omega
      | succ m => simp [truthy, List.take, List.isEmpty]
  | null => simp [py_slice] at h
  | bool b => simp [py_slice] at h
  | num m => simp [py_slice] at h
  | obj fs => simp [py_slice] at h

theorem extract_first_heading_ne (h : String) (t : String)
    (he : extract_first_heading h = some t) : t ≠ "" := by
  unfold extract_first_heading at he
  split at he
  · cases he
  · split at he
    · cases he
    · rename_i hne
      rw [Option.some.injEq] at he
      subst he
      exact hne

theorem title_fallback_stable (h tf : String)
    (hf : truthy (AG.title_fallback h tf) = false) : AG.title_fallback h tf = .str tf := by
  unfold AG.title_fallback at *
  cases he : extract_first_heading h with
  | none => rfl
  | some t =>
    rw [he] at hf
    simp only [truthy, bne_iff_ne, ne_eq] at hf
    exact absurd hf (by simpa using extract_first_heading_ne h t he)

theorem resolve_title_stable (t0 : Option JVal) (h tf : String) :
    AG.resolve_title (some (AG.resolve_title t0 h tf)) h tf = AG.resolve_title t0 h tf := by
  have hred : ∀ (x : JVal), AG.resolve_title (some x) h tf
      = if truthy x = true then x else AG.title_fallback h tf := fun x => rfl
  by_cases ht : truthy (AG.resolve_title t0 h tf) = true
  · rw [hred, if_pos ht]
  · have hf : truthy (AG.resolve_title t0 h tf) = false := by simpa using ht
    have hfb : AG.resolve_title t0 h tf = AG.title_fallback h tf := by
      cases t0 with
      | none => rfl
      | some t =>
        rw [hred] at hf ⊢
        by_cases htt : truthy t = true
        · rw [if_pos htt] at hf
          rw [htt] at hf
          cases hf
        · rw [if_neg htt]
    rw [hred, if_neg (by simp [hf]), hfb]

/-- The field list of a canonical bundle (shared by `mkBundle`). -/
def bundleFields (title : JVal) (h : String) (mt md faq schema outline : JVal) :
    List (String × JVal) :=
  [("title", title),
   ("article_html", .str h),
   ("meta", .obj [("title", mt), ("description", md)]),
   ("faq", faq),
   ("schema", schema),
   ("outline", outline)]

theorem mkBundle_eq_obj (title : JVal) (h : String) (mt md faq schema outline : JVal) :
    AG.mkBundle title h mt md faq schema outline
      = .obj (bundleFields title h mt md faq schema outline) := rfl

theorem resolve_faq_shape (c : List (String × JVal)) :
    ∃ xs, AG.resolve_faq c = .arr xs := by
  unfold AG.resolve_faq
  split
  · exact ⟨_, rfl⟩
  · exact ⟨[], rfl⟩

theorem resolve_schema_shape (c : List (String × JVal)) (t : JVal) (lang now : String) :
    ∃ ss, AG.resolve_schema c t lang now = .obj ss := by
  unfold AG.resolve_schema
  split
  · exact ⟨_, rfl⟩
  · exact ⟨_, rfl⟩

theorem string_append_ne_empty (a b : String) (ha : a.data ≠ []) : a ++ b ≠ "" := by
  intro hc
  have hd := congrArg String.data hc
  rw [String.data_append] at hd
  cases a with
  | mk d =>
    cases d with
    | nil => exact ha rfl
    | cons c cs => simp at hd

theorem build_meta_ok_inv (c : List (String × JVal)) (t mt md : JVal)
    (h : AG.build_meta c t = .ok (mt, md)) :
    py_slice mt 60 = .ok mt ∧ (truthy mt = false → py_slice t 60 = .ok mt) ∧
      truthy md = true ∧ py_slice md 155 = .ok md := by
  simp only [AG.build_meta] at h
  split at h
  · cases h
  · rename_i meta_title hor
    split at h
    · cases h
    · rename_i mt2 hmt2
      split at h
      · cases h
      · rename_i md2 hmd2
        rw [Except.ok.injEq, Prod.mk.injEq] at h
        obtain ⟨hmtEq, hmdEq⟩ := h
        subst hmtEq
        subst hmdEq
        refine ⟨py_slice_idem _ _ _ hmt2, ?_, ?_, py_slice_idem _ _ _ hmd2⟩
        · intro hft
          unfold py_or at hor
          split at hor
          · rename_i htm
            rw [Except.ok.injEq] at hor
            subst hor
            have := py_slice_truthy _ _ 60 (by omega) hmt2 htm
            rw [this] at hft
            cases hft
          · have hms : py_slice meta_title 60 = .ok meta_title :=
              py_slice_idem _ _ _ hor
            have : mt2 = meta_title := by
              rw [hms] at hmt2
              exact (Except.ok.injEq _ _).mp hmt2.symm
            rw [this]
            exact hor
        · have htpre : truthy (py_orV (objGetD (AG.resolve_meta_obj c) "description")
              (.str ("Erfahren Sie alles über " ++ py_str t ++ "."))) = true := by
            unfold py_orV
            split
            · rename_i htd; exact htd
            · show truthy (.str ("Erfahren Sie alles über " ++ py_str t ++ ".")) = true
              simp only [truthy, bne_iff_ne, ne_eq]
              exact string_append_ne_empty "Erfahren Sie alles über " (py_str t ++ ".")
                (by decide)
          exact py_slice_truthy _ _ 155 (by omega) hmd2 htpre

theorem normalize_result_ok_inv (raw : JVal) (tf lang now : String) (b : JVal)
    (h : AG.normalize_result raw tf lang now = .ok b) :
    ∃ fs H mt md,
      raw = .obj fs ∧
      AG.get_ci (AG.unwrap fs) ["article_html", "html", "content"] = some (.str H) ∧
      pyStrip H ≠ "" ∧
      AG.build_meta (AG.unwrap fs)
        (AG.resolve_title (AG.get_ci (AG.unwrap fs) ["title", "titel", "headline"]) H tf)
          = .ok (mt, md) ∧
      b = AG.mkBundle
            (AG.resolve_title (AG.get_ci (AG.unwrap fs) ["title", "titel", "headline"]) H tf)
            H mt md (AG.resolve_faq (AG.unwrap fs))
            (AG.resolve_schema (AG.unwrap fs)
              (AG.resolve_title (AG.get_ci (AG.unwrap fs) ["title", "titel", "headline"]) H tf)
              lang now)
            (extract_outline H) := by
  simp only [AG.normalize_result] at h
  split at h
  · rename_i fs
    split at h
    · rename_i H hget
      split at h
      · cases h
      · rename_i hne
        split at h
        · cases h
        · rename_i p mt md hbm
          rw [Except.ok.injEq] at h
          exact ⟨fs, H, mt, md, rfl, hget, hne, hbm, h.symm⟩
    · cases h
  · cases h

theorem normalize_result_bundle_eval (T : JVal) (H : String) (mt md F S O : JVal)
    (tf lang now : String) (hH : ¬ pyStrip H = "") :
    AG.normalize_result (AG.mkBundle T H mt md F S O) tf lang now =
      match AG.build_meta (bundleFields T H mt md F S O)
          (AG.resolve_title (some T) H tf) with
      | .error e => .error e
      | .ok (mt2, md2) =>
        .ok (AG.mkBundle (AG.resolve_title (some T) H tf) H mt2 md2
              (AG.resolve_faq (bundleFields T H mt md F S O))
              (AG.resolve_schema (bundleFields T H mt md F S O)
                (AG.resolve_title (some T) H tf) lang now)
              (extract_outline H)) := by
  rw [show AG.normalize_result (AG.mkBundle T H mt md F S O) tf lang now
      = (if pyStrip H = "" then (.error (.valueError "Missing or invalid 'article_html'.")) else
          match AG.build_meta (bundleFields T H mt md F S O)
              (AG.resolve_title (some T) H tf) with
          | .error e => .error e
          | .ok (mt2, md2) =>
            .ok (AG.mkBundle (AG.resolve_title (some T) H tf) H mt2 md2
                  (AG.resolve_faq (bundleFields T H mt md F S O))
                  (AG.resolve_schema (bundleFields T H mt md F S O)
                    (AG.resolve_title (some T) H tf) lang now)
                  (extract_outline H)) : Except PyErr JVal)
    from rfl]
  rw [if_neg hH]

theorem build_meta_bundle (T : JVal) (H : String) (mt md F S O : JVal)
    (hA : py_slice mt 60 = .ok mt) (hB : truthy mt = false → py_slice T 60 = .ok mt)
    (hC : truthy md = true) (hD : py_slice md 155 = .ok md) :
    AG.build_meta (bundleFields T H mt md F S O) T = .ok (mt, md) := by
  rw [show AG.build_meta (bundleFields T H mt md F S O) T
      = (match py_or mt (py_slice T 60) with
         | .error e => .error e
         | .ok meta_title =>
           match py_slice meta_title 60 with
           | .error e => .error e
           | .ok mt2 =>
             match py_slice (py_orV md
                 (.str ("Erfahren Sie alles über " ++ py_str T ++ "."))) 155 with
             | .error e => .error e
             | .ok md2 => .ok (mt2, md2) : Except PyErr (JVal × JVal))
    from rfl]
  have hmdv : py_orV md (.str ("Erfahren Sie alles über " ++ py_str T ++ ".")) = md := by
    unfold py_orV
    rw [if_pos hC]
  have hor : py_or mt (py_slice T 60) = .ok mt := by
    unfold py_or
    by_cases htm : truthy mt = true
    · rw [if_pos htm]
    · rw [if_neg htm]
      exact hB (by simpa using htm)
  rw [hor]
  show (match py_slice mt 60 with
        | .error e => .error e
        | .ok mt2 =>
          match py_slice (py_orV md
              (.str ("Erfahren Sie alles über " ++ py_str T ++ "."))) 155 with
          | .error e => .error e
          | .ok md2 => .ok (mt2, md2) : Except PyErr (JVal × JVal)) = .ok (mt, md)
  rw [hA]
  show (match py_slice (py_orV md
          (.str ("Erfahren Sie alles über " ++ py_str T ++ "."))) 155 with
        | .error e => .error e
        | .ok md2 => .ok (mt, md2) : Except PyErr (JVal × JVal)) = .ok (mt, md)
  rw [hmdv, hD]

/-- C7: normalization is idempotent. Feeding a successful normalization's
output back to `_normalize_result` (same topic fallback and language; the
timestamp may even differ, since a canonical bundle always carries a
dict-typed `schema` that is kept verbatim) returns the identical bundle. -/
theorem C7_normalize_idempotent (raw : JVal) (tf lang now now2 : String) (b : JVal)
    (h : AG.normalize_result raw tf lang now = .ok b) :
    AG.normalize_result b tf lang now2 = .ok b := by
  obtain ⟨fs, H, mt, md, hraw, hget, hne, hbm, hb⟩ :=
    normalize_result_ok_inv raw tf lang now b h
  obtain ⟨hA, hB, hC, hD⟩ := build_meta_ok_inv _ _ _ _ hbm
  obtain ⟨xs, hxs⟩ := resolve_faq_shape (AG.unwrap fs)
  obtain ⟨ss, hss⟩ := resolve_schema_shape (AG.unwrap fs)
    (AG.resolve_title (AG.get_ci (AG.unwrap fs) ["title", "titel", "headline"]) H tf) lang now
  subst hb
  rw [hxs, hss]
  rw [normalize_result_bundle_eval _ _ _ _ _ _ _ tf lang now2 hne]
  rw [resolve_title_stable (AG.get_ci (AG.unwrap fs) ["title", "titel", "headline"]) H tf]
  rw [build_meta_bundle _ H _ _ _ _ _ hA hB hC hD]
  rfl

/-! ## Claim theorems -/

/-- Shared oracle: `json.loads` never consulted (all JSON columns hold
native values in the runs below). -/
def noLoads : String → Option JVal := fun _ => none

/-- Shared oracle: no image source yields anything. -/
def imgNone : AG.ImageOracle :=
  { imageTopic := .ok none
    pexels := none
    genImage := .ok none }

def rawC7 : JVal :=
  .obj [("title", .str "T"), ("article_html", .str "<p>x</p>"),
        ("meta", .obj [("title", .str "MT"), ("description", .str "MD")]),
        ("faq", .arr []), ("schema", .obj [("@type", .str "Article")])]

def bC7 : JVal :=
  .obj [("title", .str "T"), ("article_html", .str "<p>x</p>"),
        ("meta", .obj [("title", .str "MT"), ("description", .str "MD")]),
        ("faq", .arr []), ("schema", .obj [("@type", .str "Article")]),
        ("outline", .obj [("sections", .arr [])])]

theorem C7_normalize_idempotent_witness :
    AG.normalize_result rawC7 "tf" "de" "N1" = .ok bC7 ∧
      AG.normalize_result bC7 "tf" "de" "N2" = .ok bC7 :=
  ⟨rfl, C7_normalize_idempotent rawC7 "tf" "de" "N1" "N2" bC7 rfl⟩

/-- C9 (counterexample): when the provider returns no usable text
(`message.content` is `None`), `run_text` returns the empty string to its
caller — a value, not a propagated `EmptyCompletion` failure (no such
error exists in the client). -/
theorem C9_counterexample : OC.run_text (.ok none) = .ok "" := rfl

/-- C9 (amended): for every empty completion (a `None` or empty-string
`message.content`), `run_text` returns the empty string `""` to its caller
rather than raising; provider exceptions are re-raised unchanged, but no
`EmptyCompletion` error is ever produced. -/
theorem C9_empty_completion_returns_empty (c : Option String)
    (h : c = none ∨ c = some "") : OC.run_text (.ok c) = .ok "" := by
  rcases h with h | h <;> subst h <;> rfl

theorem C9_empty_completion_returns_empty_witness :
    ((none : Option String) = none ∨ (none : Option String) = some "") ∧
      OC.run_text (.ok none) = .ok "" :=
  ⟨Or.inl rfl, C9_empty_completion_returns_empty none (Or.inl rfl)⟩

def jobC10 : JobRec := { topic := "T" }

/-- C10: whenever a precondition fails before generation starts (missing
API key, Job row, Site row, or License row), `generate_article` returns
`False` without raising, leaves the Job row untouched, creates no Article
row, and dispatches nothing. -/
theorem C10_precondition_no_mutation (apiKey : Bool) (job? : Option JobRec)
    (siteExists licenseExists : Bool) (raw : Except PyErr JVal)
    (imgO : AG.ImageOracle) (loads : String → Option JVal) (wp : WH.WpOutcome)
    (now : String)
    (h : apiKey = false ∨ job? = none ∨ siteExists = false ∨ licenseExists = false) :
    (AG.pipeline_generate_article apiKey job? siteExists licenseExists raw imgO loads wp now).returned
        = false ∧
    (AG.pipeline_generate_article apiKey job? siteExists licenseExists raw imgO loads wp now).job
        = job? ∧
    (AG.pipeline_generate_article apiKey job? siteExists licenseExists raw imgO loads wp now).article
        = none ∧
    (AG.pipeline_generate_article apiKey job? siteExists licenseExists raw imgO loads wp now).dispatched
        = none := by
  rcases h with h | h | h | h
  · subst h
    exact ⟨rfl, rfl, rfl, rfl⟩
  · subst h
    cases apiKey
    · exact ⟨rfl, rfl, rfl, rfl⟩
    · exact ⟨rfl, rfl, rfl, rfl⟩
  · subst h
    cases apiKey
    · exact ⟨rfl, rfl, rfl, rfl⟩
    · cases job? with
      | none => exact ⟨rfl, rfl, rfl, rfl⟩
      | some job => exact ⟨rfl, rfl, rfl, rfl⟩
  · subst h
    cases apiKey
    · exact ⟨rfl, rfl, rfl, rfl⟩
    · cases job? with
      | none => exact ⟨rfl, rfl, rfl, rfl⟩
      | some job =>
        cases siteExists
        · exact ⟨rfl, rfl, rfl, rfl⟩
        · exact ⟨rfl, rfl, rfl, rfl⟩

theorem C10_precondition_no_mutation_witness :
    (false = false ∨ (some jobC10 : Option JobRec) = none ∨ true = false ∨ true = false) ∧
    (AG.pipeline_generate_article false (some jobC10) true true (.ok (.obj []))
        imgNone noLoads (.success none) "N").returned = false ∧
    (AG.pipeline_generate_article false (some jobC10) true true (.ok (.obj []))
        imgNone noLoads (.success none) "N").job = some jobC10 :=
  ⟨Or.inl rfl,
   (C10_precondition_no_mutation false (some jobC10) true true (.ok (.obj []))
      imgNone noLoads (.success none) "N" (Or.inl rfl)).1,
   (C10_precondition_no_mutation false (some jobC10) true true (.ok (.obj []))
      imgNone noLoads (.success none) "N" (Or.inl rfl)).2.1⟩

theorem py_slice_error (v : JVal) (n : Nat) (e : PyErr)
    (h : py_slice v n = .error e) : e = .typeError := by
  cases v with
  | str s => simp [py_slice] at h
  | arr xs => simp [py_slice] at h
  | null => simp [py_slice] at h; exact h.symm
  | bool b => simp [py_slice] at h; exact h.symm
  | num m => simp [py_slice] at h; exact h.symm
  | obj fs => simp [py_slice] at h; exact h.symm

theorem build_meta_error_typeError (c : List (String × JVal)) (t : JVal) (e : PyErr)
    (h : AG.build_meta c t = .error e) : e = .typeError := by
  simp only [AG.build_meta] at h
  split at h
  · rename_i e2 heq
    rw [Except.error.injEq] at h
    subst h
    unfold py_or at heq
    split at heq
    · cases heq
    · exact py_slice_error _ _ _ heq
  · rename_i meta_title heq
    split at h
    · rename_i e2 heq2
      rw [Except.error.injEq] at h
      subst h
      exact py_slice_error _ _ _ heq2
    · rename_i mt2 heq2
      split at h
      · rename_i e2 heq3
        rw [Except.error.injEq] at h
        subst h
        exact py_slice_error _ _ _ heq3
      · cases h

/-- Claim-side characterization for C3: the resolved `article_html` of a
dict-shaped raw output (after one unwrap step) is absent, not a string, or
empty after stripping. -/
def spec_missing_or_empty_article_html (fs : List (String × JVal)) : Bool :=
  match AG.get_ci (AG.unwrap fs) ["article_html", "html", "content"] with
  | some (.str h) => pyStrip h == ""
  | _ => true

/-- C3 (counterexample): a dict-shaped raw output with a perfectly good
`article_html` but a truthy non-string `title` (and no meta title) makes
normalization raise a `TypeError` from `title[:60]` instead of returning a
bundle, so shape defects in the other fields are not always survived. -/
theorem C3_counterexample :
    AG.normalize_result (.obj [("title", .num 1), ("article_html", .str "<p>x</p>")])
        "t" "de" "now" = .error .typeError := rfl

/-- C3 (amended): for every dict-shaped raw output, normalization raises
its deliberate normalization `ValueError` exactly when the resolved
`article_html` is absent, not a string, or empty/whitespace; wrong
nesting, wrong casing and extra keys alone never raise it — but with a
truthy non-string value in the title or meta fields the run can instead
die with a `TypeError` (see the counterexample), so not every other shape
defect yields a bundle. -/
theorem C3_value_error_iff_missing_body (fs : List (String × JVal)) (tf lang now : String) :
    isValueError (AG.normalize_result (.obj fs) tf lang now)
      = spec_missing_or_empty_article_html fs := by
  simp only [AG.normalize_result, spec_missing_or_empty_article_html]
  split
  · rename_i H heq
    by_cases hs : pyStrip H = ""
    · rw [if_pos hs, hs]
      rfl
    · rw [if_neg hs]
      have hb : (pyStrip H == "") = false := by
        simpa using hs
      rw [hb]
      split
      · rename_i e heq2
        rw [build_meta_error_typeError _ _ _ heq2]
        rfl
      · rfl
  · rename_i hnotstr
    rfl

/-- C1 (counterexample): with the strict-schema mode configured and a first
completion that fails to parse as JSON, the CLI raises immediately
(`Empty JSON in schema mode.`); under the identical provider responses the
plain-HTML path (mode `none`) would have produced a bundle. No fallback
from one schema mode to another exists, and no `GenerationExhausted`
error exists anywhere in the code. -/
theorem C1_counterexample :
    CLI.generate_article "json_schema" "T" "de" none "<h2>Ok</h2><p>x</p>" false
        (.ok none) "NOW" = .error (.valueError "Empty JSON in schema mode.") ∧
    exOk (CLI.generate_article "none" "T" "de" none "<h2>Ok</h2><p>x</p>" false
        (.ok none) "NOW") = true :=
  ⟨rfl, rfl⟩

/-- C1 (amended): the response mode is fixed per run by configuration, not
tried as a fallback chain. Modes `json_schema` and `json_object` make one
request each and raise a `ValueError` when its JSON body is empty or
unparseable, without trying any other tier; only mode `none` falls back,
from JSON parsing to a single plain-HTML request, whose output becomes the
bundle (empty `faq`, synthesized meta) when it contains a heading tag.
The backend `_generate_payload` makes a single structured call and
normalizes it; there is no `GenerationExhausted`. -/
theorem C1_mode_is_config_not_fallback (topic language content2 now : String)
    (h2 : strContains (pyLower content2) "<h" = true) :
    CLI.generate_article "json_schema" topic language none content2 false (.ok none) now
        = .error (.valueError "Empty JSON in schema mode.") ∧
    CLI.generate_article "json_object" topic language none content2 false (.ok none) now
        = .error (.valueError "Empty JSON in json_object mode.") ∧
    ∃ b, CLI.generate_article "none" topic language none content2 false (.ok none) now
          = .ok b ∧
        AG.bGet b "article_html" = .str content2 ∧
        AG.bGet b "faq" = .arr [] := by
  refine ⟨rfl, rfl, ?_⟩
  have hng : ∀ r, CLI.cli_text_bundle "none" topic language none content2 now = r →
      CLI.generate_article "none" topic language none content2 false (.ok none) now = r := by
    intro r hr
    simp only [CLI.generate_article, hr]
    cases r with
    | error e => rfl
    | ok d => rfl
  have hb : CLI.cli_text_bundle "none" topic language none content2 now
      = (if !strContains (pyLower content2) "<h" then
          (.error (.valueError "Plain HTML fallback invalid/empty.") : Except PyErr JVal)
        else
          .ok (.obj [("title", .str ((extract_first_heading content2).getD topic)),
            ("article_html", .str content2),
            ("meta", .obj [("title",
               .str (String.mk (((extract_first_heading content2).getD topic).data.take 60))),
              ("description", .str (String.mk (("Erfahren Sie alles über " ++
                ((extract_first_heading content2).getD topic) ++
                ". Umfassende Informationen und praktische Tipps.").data.take 155)))]),
            ("faq", .arr []),
            ("schema", .obj [("@context", .str "https://schema.org"),
              ("@type", .str "Article"),
              ("headline", .str ((extract_first_heading content2).getD topic)),
              ("datePublished", .str now),
              ("inLanguage", .str language)])])) := rfl
  rw [h2] at hb
  refine ⟨_, hng _ hb, rfl, rfl⟩

theorem C1_mode_is_config_not_fallback_witness :
    strContains (pyLower "<h2>Ok</h2>") "<h" = true ∧
    CLI.generate_article "json_object" "T" "de" none "<h2>Ok</h2>" false (.ok none) "N"
        = .error (.valueError "Empty JSON in json_object mode.") :=
  ⟨by decide,
   (C1_mode_is_config_not_fallback "T" "de" "<h2>Ok</h2>" "N" (by decide)).2.1⟩

def rawC8 : JVal :=
  .obj [("article", .obj [("article_html", .str "<p>inner</p>")]),
        ("article_html", .str "<p>outer</p>")]

/-- C8 (counterexample): when the wrapped dict `B` itself contains a
wrapper key with a dict value, normalizing `{w: B}` and normalizing `B`
differ: direct normalization of `B` descends one level into
`B["article"]`, while `{"result": B}` stops at `B`, so the two runs
resolve different `article_html` bodies. -/
theorem C8_counterexample :
    exHtml (AG.normalize_result rawC8 "T" "de" "NOW") = some "<p>inner</p>" ∧
    exHtml (AG.normalize_result (.obj [("result", rawC8)]) "T" "de" "NOW")
        = some "<p>outer</p>" ∧
    AG.normalize_result (.obj [("result", rawC8)]) "T" "de" "NOW"
        ≠ AG.normalize_result rawC8 "T" "de" "NOW" := by
  refine ⟨rfl, rfl, ?_⟩
  intro hEq
  have hproj := congrArg exHtml hEq
  rw [show exHtml (AG.normalize_result (.obj [("result", rawC8)]) "T" "de" "NOW")
        = some "<p>outer</p>" from rfl,
      show exHtml (AG.normalize_result rawC8 "T" "de" "NOW")
        = some "<p>inner</p>" from rfl] at hproj
  exact absurd hproj (by decide)

/-- Does an object carry key `k` with a dict-typed value (the unwrap
loop's descent condition). -/
def hasObjValue (fs : List (String × JVal)) (k : String) : Bool :=
  match objGet fs k with
  | some (.obj _) => true
  | _ => false

theorem find_wrapped_id (ws : List String) (fs : List (String × JVal))
    (h : ws.all (fun w => !hasObjValue fs w) = true) : AG.find_wrapped ws fs = fs := by
  induction ws with
  | nil => rfl
  | cons w ws ih =>
    simp only [List.all_cons, Bool.and_eq_true] at h
    obtain ⟨hw, hws⟩ := h
    simp only [AG.find_wrapped]
    split
    · rename_i inner heq
      rw [show hasObjValue fs w = true from by simp [hasObjValue, heq]] at hw
      cases hw
    · exact ih hws

theorem unwrap_singleton (w : String) (B : List (String × JVal))
    (hw : w ∈ AG.wrapperKeys) : AG.unwrap [(w, .obj B)] = B := by
  fin_cases hw <;> rfl

/-- C8 (amended): for every dict-shaped raw output `B` that does not itself
carry a dict-typed value under any recognized wrapper key, and every
wrapper key `w` in the fixed ordered list, normalizing `{w: B}` yields the
same result as normalizing `B` directly; unwrapping always removes at most
one level (the loop breaks at the first dict-typed match). When `B` does
carry such a key the two runs differ, because normalizing `B` directly
spends the single unwrap step descending into `B` (see the
counterexample). -/
theorem C8_unwrap_one_level (w : String) (B : List (String × JVal)) (tf lang now : String)
    (hw : w ∈ AG.wrapperKeys)
    (hnb : AG.wrapperKeys.all (fun w2 => !hasObjValue B w2) = true) :
    AG.normalize_result (.obj [(w, .obj B)]) tf lang now
      = AG.normalize_result (.obj B) tf lang now := by
  have e1 : AG.unwrap [(w, .obj B)] = B := unwrap_singleton w B hw
  have e2 : AG.unwrap B = B := find_wrapped_id AG.wrapperKeys B hnb
  simp only [AG.normalize_result, e1, e2]

theorem C8_unwrap_one_level_witness :
    ("result" ∈ AG.wrapperKeys) ∧
    (AG.wrapperKeys.all
        (fun w2 => !hasObjValue [("article_html", JVal.str "<p>hi</p>")] w2) = true) ∧
    AG.normalize_result (.obj [("result", .obj [("article_html", .str "<p>hi</p>")])])
        "T" "de" "N"
      = AG.normalize_result (.obj [("article_html", .str "<p>hi</p>")]) "T" "de" "N" :=
  ⟨by decide, by decide,
   C8_unwrap_one_level "result" [("article_html", .str "<p>hi</p>")] "T" "de" "N"
     (by decide) (by decide)⟩

theorem jSet_obj (fs : List (String × JVal)) (k : String) (w : JVal) :
    CLI.jSet (.obj fs) k w = .obj (CLI.objSet fs k w) := rfl

theorem pipeline_ok_eval (job : JobRec) (raw : Except PyErr JVal) (imgO : AG.ImageOracle)
    (loads : String → Option JVal) (wp : WH.WpOutcome) (now : String) (b : JVal)
    (hok : AG.generate_payload raw job.topic (job.language.getD "de") now = .ok b) :
    AG.pipeline_generate_article true (some job) true true raw imgO loads wp now =
      ⟨true,
       some { job with status := "completed", finished := true },
       (WH.send_article_to_wordpress loads
          (some { (AG.assemble job (AG.article0_of job) b imgO).1 with status := .ready })
          true true (some (AG.assemble job (AG.article0_of job) b imgO).2) wp).article,
       some "completed",
       (WH.send_article_to_wordpress loads
          (some { (AG.assemble job (AG.article0_of job) b imgO).1 with status := .ready })
          true true (some (AG.assemble job (AG.article0_of job) b imgO).2) wp).sent⟩ := by
  rw [show AG.pipeline_generate_article true (some job) true true raw imgO loads wp now
      = (match AG.generate_payload raw job.topic (job.language.getD "de") now with
         | .error e =>
           (⟨false,
             some { job with status := "failed", error := some (errStr e), finished := true },
             some { AG.article0_of job with status := .failed },
             none, none⟩ : AG.PipeResult)
         | .ok payload =>
           ⟨true,
            some { job with status := "completed", finished := true },
            (WH.send_article_to_wordpress loads
               (some { (AG.assemble job (AG.article0_of job) payload imgO).1 with status := .ready })
               true true (some (AG.assemble job (AG.article0_of job) payload imgO).2) wp).article,
            some "completed",
            (WH.send_article_to_wordpress loads
               (some { (AG.assemble job (AG.article0_of job) payload imgO).1 with status := .ready })
               true true (some (AG.assemble job (AG.article0_of job) payload imgO).2) wp).sent⟩)
      from rfl, hok]

theorem build_article_payload_ok_inv (loads : String → Option JVal) (article : ArticleRec)
    (po : Option JVal) (d : JVal)
    (h : WH.build_article_payload loads article po = .ok d) :
    ∃ mt featured contentImgs,
      WH.wp_images loads article (WH.wp_pf po) = .ok (featured, contentImgs) ∧
      d = .obj [("title", WH.wp_title (WH.wp_pf po) article),
                ("content", WH.wp_content (WH.wp_pf po) article),
                ("meta_title", mt),
                ("meta_description",
                  WH.wp_meta_description (WH.wp_pf po) article (WH.wp_title (WH.wp_pf po) article)),
                ("faq", WH.wp_faq loads (WH.wp_pf po) article),
                ("schema_data", WH.wp_schema loads (WH.wp_pf po) article),
                ("featured_image", featured),
                ("image_urls", contentImgs),
                ("category", (objGet (WH.wp_pf po) "category").getD .null),
                ("tags", (objGet (WH.wp_pf po) "tags").getD .null),
                ("include_faq", (objGet (WH.wp_pf po) "include_faq").getD (.bool true))] := by
  simp only [WH.build_article_payload] at h
  split at h
  · cases h
  · rename_i mt hmt
    split at h
    · cases h
    · rename_i featured contentImgs hfc
      rw [Except.ok.injEq] at h
      exact ⟨mt, featured, contentImgs, hfc, h.symm⟩

def jobC2 : JobRec := { topic := "T" }

def rawC2 : JVal :=
  .obj [("title", .str "T"), ("article_html", .str "<p>x</p>"),
        ("meta", .obj [("title", .str "MT"), ("description", .str "MD")]),
        ("faq", .arr []), ("schema", .obj [("k", .str "v")])]

def bC2 : JVal :=
  .obj [("title", .str "T"), ("article_html", .str "<p>x</p>"),
        ("meta", .obj [("title", .str "MT"), ("description", .str "MD")]),
        ("faq", .arr []), ("schema", .obj [("k", .str "v")]),
        ("outline", .obj [("sections", .arr [])])]

/-- C2 (counterexample): a run whose bundle assembles successfully but
whose WordPress POST returns a non-200: the Job was already committed
`completed` when the dispatcher was invoked, the run still returns `True`,
and the Article ends `failed`, not `ready` — contradicting both halves of
the claim. -/
theorem C2_counterexample :
    (AG.pipeline_generate_article true (some jobC2) true true (.ok rawC2) imgNone noLoads
        .httpFail "NOW").jobStatusAtDispatch = some "completed" ∧
    ((AG.pipeline_generate_article true (some jobC2) true true (.ok rawC2) imgNone noLoads
        .httpFail "NOW").article.map ArticleRec.status) = some .failed ∧
    ((AG.pipeline_generate_article true (some jobC2) true true (.ok rawC2) imgNone noLoads
        .httpFail "NOW").job.map JobRec.status) = some "completed" ∧
    (AG.pipeline_generate_article true (some jobC2) true true (.ok rawC2) imgNone noLoads
        .httpFail "NOW").returned = true :=
  ⟨rfl, rfl, rfl, rfl⟩

/-- C2 (amended): whenever the bundle assembles successfully, the Job is
committed `completed` (with its finish timestamp) before the dispatcher is
invoked, and it stays `completed` regardless of the delivery outcome; if
delivery then fails (non-200 or exception) the Article is set to `failed`,
not kept `ready`. -/
theorem C2_completed_before_dispatch (job : JobRec) (raw : Except PyErr JVal)
    (imgO : AG.ImageOracle) (loads : String → Option JVal) (wp : WH.WpOutcome)
    (now : String) (b : JVal)
    (hok : AG.generate_payload raw job.topic (job.language.getD "de") now = .ok b) :
    (AG.pipeline_generate_article true (some job) true true raw imgO loads wp now).jobStatusAtDispatch
        = some "completed" ∧
    ((AG.pipeline_generate_article true (some job) true true raw imgO loads wp now).job.map
        JobRec.status) = some "completed" ∧
    ((AG.pipeline_generate_article true (some job) true true raw imgO loads wp now).job.map
        JobRec.finished) = some true ∧
    (wp = .httpFail ∨ wp = .raised →
      ((AG.pipeline_generate_article true (some job) true true raw imgO loads wp now).article.map
          ArticleRec.status) = some .failed) := by
  rw [pipeline_ok_eval job raw imgO loads wp now b hok]
  refine ⟨rfl, rfl, rfl, ?_⟩
  intro hwp
  rcases hwp with h | h <;> subst h <;>
    cases hb : WH.build_article_payload loads
        { (AG.assemble job (AG.article0_of job) b imgO).1 with status := .ready }
        (some (AG.assemble job (AG.article0_of job) b imgO).2) with
    | error e => simp [WH.send_article_to_wordpress, hb]
    | ok d => simp [WH.send_article_to_wordpress, hb]

theorem C2_completed_before_dispatch_witness :
    (AG.pipeline_generate_article true (some jobC2) true true (.ok rawC2) imgNone noLoads
        .httpFail "NOW").jobStatusAtDispatch = some "completed" ∧
    ((AG.pipeline_generate_article true (some jobC2) true true (.ok rawC2) imgNone noLoads
        .httpFail "NOW").article.map ArticleRec.status) = some .failed :=
  ⟨(C2_completed_before_dispatch jobC2 (.ok rawC2) imgNone noLoads .httpFail "NOW" bC2 rfl).1,
   (C2_completed_before_dispatch jobC2 (.ok rawC2) imgNone noLoads .httpFail "NOW" bC2 rfl).2.2.2
     (Or.inl rfl)⟩

theorem with_post_id_fields (a : ArticleRec) (post_id : Option Int) :
    (WH.with_post_id a post_id).faq_json = a.faq_json ∧
    (WH.with_post_id a post_id).image_urls_json = a.image_urls_json ∧
    (WH.with_post_id a post_id).meta_description = a.meta_description ∧
    (WH.with_post_id a post_id).article_html = a.article_html := by
  cases post_id with
  | none => exact ⟨rfl, rfl, rfl, rfl⟩
  | some pid =>
    have hred : WH.with_post_id a (some pid) =
        if (pid != 0) = true then
          (match a.outline_json with
           | .obj fs =>
             { a with outline_json := .obj (CLI.objSet fs "wordpress_post_id" (.num pid)) }
           | _ => { a with outline_json := .obj [("wordpress_post_id", .num pid)] })
        else a := rfl
    by_cases hp : (pid != 0) = true
    · rw [hred, if_pos hp]
      cases ho : a.outline_json <;> exact ⟨rfl, rfl, rfl, rfl⟩
    · rw [hred, if_neg hp]
      exact ⟨rfl, rfl, rfl, rfl⟩

theorem send_eval (loads : String → Option JVal) (a : ArticleRec) (po : Option JVal)
    (wp : WH.WpOutcome) :
    WH.send_article_to_wordpress loads (some a) true true po wp =
      (match WH.build_article_payload loads a po with
       | .error _ => ⟨false, some { a with status := .failed }, none⟩
       | .ok article_data =>
         match wp with
         | .success post_id =>
           ⟨true, some { WH.with_post_id a post_id with status := .ready }, some article_data⟩
         | .httpFail => ⟨false, some { a with status := .failed }, some article_data⟩
         | .raised => ⟨false, some { a with status := .failed }, some article_data⟩) := rfl

theorem send_article_fields (loads : String → Option JVal) (a : ArticleRec)
    (po : Option JVal) (wp : WH.WpOutcome) (r : ArticleRec)
    (h : (WH.send_article_to_wordpress loads (some a) true true po wp).article = some r) :
    r.faq_json = a.faq_json ∧ r.image_urls_json = a.image_urls_json ∧
      r.meta_description = a.meta_description ∧ r.article_html = a.article_html := by
  rw [send_eval] at h
  split at h
  · rw [Option.some.injEq] at h
    subst h
    exact ⟨rfl, rfl, rfl, rfl⟩
  · rename_i d hb
    cases wp with
    | httpFail =>
      rw [show (⟨false, some { a with status := .failed }, some d⟩ : WH.SendResult).article
            = some { a with status := .failed } from rfl, Option.some.injEq] at h
      subst h
      exact ⟨rfl, rfl, rfl, rfl⟩
    | raised =>
      rw [show (⟨false, some { a with status := .failed }, some d⟩ : WH.SendResult).article
            = some { a with status := .failed } from rfl, Option.some.injEq] at h
      subst h
      exact ⟨rfl, rfl, rfl, rfl⟩
    | success post_id =>
      rw [show (⟨true, some { WH.with_post_id a post_id with status := .ready }, some d⟩ :
            WH.SendResult).article = some { WH.with_post_id a post_id with status := .ready }
          from rfl, Option.some.injEq] at h
      subst h
      obtain ⟨h1, h2, h3, h4⟩ := with_post_id_fields a post_id
      exact ⟨h1, h2, h3, h4⟩

theorem send_sent_inv (loads : String → Option JVal) (a : ArticleRec) (po : Option JVal)
    (wp : WH.WpOutcome) (d : JVal)
    (h : (WH.send_article_to_wordpress loads (some a) true true po wp).sent = some d) :
    WH.build_article_payload loads a po = .ok d := by
  rw [send_eval] at h
  split at h
  · cases h
  · rename_i d0 hb
    cases wp with
    | httpFail =>
      rw [Option.some.injEq] at h
      subst h
      exact hb
    | raised =>
      rw [Option.some.injEq] at h
      subst h
      exact hb
    | success post_id =>
      rw [Option.some.injEq] at h
      subst h
      exact hb

theorem generate_payload_ok_inv (raw : Except PyErr JVal) (topic language now : String)
    (b : JVal) (h : AG.generate_payload raw topic language now = .ok b) :
    ∃ r, raw = .ok r ∧ AG.normalize_result r topic language now = .ok b := by
  cases raw with
  | error e => simp [AG.generate_payload] at h
  | ok r => exact ⟨r, rfl, h⟩

theorem assemble_payload_eq (job : JobRec) (a0 : ArticleRec) (fs : List (String × JVal))
    (imgO : AG.ImageOracle) :
    (AG.assemble job a0 (.obj fs) imgO).2 =
      CLI.jSet (CLI.jSet (CLI.jSet (CLI.jSet
        (if job.include_cta && optTruthy job.cta_url then
           CLI.jSet (.obj fs) "article_html"
             (.str (py_str (AG.bGet (.obj fs) "article_html") ++ "\n\n" ++
               AG.cta_html (job.cta_url.getD "")))
         else .obj fs)
        "category" (AG.category_value job)) "tags" (AG.tags_value job))
        "featured_image" (AG.image_split (AG.resolved_image_urls job imgO)).1)
        "image_urls" (AG.image_split (AG.resolved_image_urls job imgO)).2 := rfl

theorem assemble_payload_get_ne (job : JobRec) (a0 : ArticleRec) (fs : List (String × JVal))
    (imgO : AG.ImageOracle) (k : String)
    (h1 : k ≠ "article_html") (h2 : k ≠ "category") (h3 : k ≠ "tags")
    (h4 : k ≠ "featured_image") (h5 : k ≠ "image_urls") :
    ∃ ps, (AG.assemble job a0 (.obj fs) imgO).2 = .obj ps ∧ objGet ps k = objGet fs k := by
  rw [assemble_payload_eq]
  by_cases hcta : (job.include_cta && optTruthy job.cta_url) = true
  · rw [if_pos hcta]
    refine ⟨_, rfl, ?_⟩
    rw [objGet_objSet_ne _ _ _ _ (Ne.symm h5), objGet_objSet_ne _ _ _ _ (Ne.symm h4),
        objGet_objSet_ne _ _ _ _ (Ne.symm h3), objGet_objSet_ne _ _ _ _ (Ne.symm h2),
        objGet_objSet_ne _ _ _ _ (Ne.symm h1)]
  · rw [if_neg hcta]
    refine ⟨_, rfl, ?_⟩
    rw [objGet_objSet_ne _ _ _ _ (Ne.symm h5), objGet_objSet_ne _ _ _ _ (Ne.symm h4),
        objGet_objSet_ne _ _ _ _ (Ne.symm h3), objGet_objSet_ne _ _ _ _ (Ne.symm h2)]

theorem assemble_payload_get_images (job : JobRec) (a0 : ArticleRec)
    (fs : List (String × JVal)) (imgO : AG.ImageOracle) :
    ∃ ps, (AG.assemble job a0 (.obj fs) imgO).2 = .obj ps ∧
      objGet ps "featured_image" = some (AG.image_split (AG.resolved_image_urls job imgO)).1 ∧
      objGet ps "image_urls" = some (AG.image_split (AG.resolved_image_urls job imgO)).2 := by
  rw [assemble_payload_eq]
  by_cases hcta : (job.include_cta && optTruthy job.cta_url) = true
  · rw [if_pos hcta]
    refine ⟨_, rfl, ?_, objGet_objSet_self _ _ _⟩
    rw [objGet_objSet_ne _ _ _ _ (by decide)]
    exact objGet_objSet_self _ _ _
  · rw [if_neg hcta]
    refine ⟨_, rfl, ?_, objGet_objSet_self _ _ _⟩
    rw [objGet_objSet_ne _ _ _ _ (by decide)]
    exact objGet_objSet_self _ _ _

theorem wp_pf_obj (ps : List (String × JVal)) : WH.wp_pf (some (.obj ps)) = ps := rfl

theorem bundleFields_get (T : JVal) (H : String) (mt md F S O : JVal) :
    objGet (bundleFields T H mt md F S O) "faq" = some F ∧
    objGet (bundleFields T H mt md F S O) "include_faq" = none ∧
    objGet (bundleFields T H mt md F S O) "article_html" = some (.str H) ∧
    objGet (bundleFields T H mt md F S O) "meta"
      = some (.obj [("title", mt), ("description", md)]) :=
  ⟨rfl, rfl, rfl, rfl⟩

theorem bGet_build_literal (t c mt2 mdv fa sc fe iu ca tg inc : JVal) :
    AG.bGet (.obj [("title", t), ("content", c), ("meta_title", mt2),
        ("meta_description", mdv), ("faq", fa), ("schema_data", sc), ("featured_image", fe),
        ("image_urls", iu), ("category", ca), ("tags", tg), ("include_faq", inc)]) "faq" = fa ∧
    AG.bGet (.obj [("title", t), ("content", c), ("meta_title", mt2),
        ("meta_description", mdv), ("faq", fa), ("schema_data", sc), ("featured_image", fe),
        ("image_urls", iu), ("category", ca), ("tags", tg), ("include_faq", inc)]) "include_faq"
      = inc ∧
    AG.bGet (.obj [("title", t), ("content", c), ("meta_title", mt2),
        ("meta_description", mdv), ("faq", fa), ("schema_data", sc), ("featured_image", fe),
        ("image_urls", iu), ("category", ca), ("tags", tg), ("include_faq", inc)])
        "featured_image" = fe ∧
    AG.bGet (.obj [("title", t), ("content", c), ("meta_title", mt2),
        ("meta_description", mdv), ("faq", fa), ("schema_data", sc), ("featured_image", fe),
        ("image_urls", iu), ("category", ca), ("tags", tg), ("include_faq", inc)]) "image_urls"
      = iu ∧
    AG.bGet (.obj [("title", t), ("content", c), ("meta_title", mt2),
        ("meta_description", mdv), ("faq", fa), ("schema_data", sc), ("featured_image", fe),
        ("image_urls", iu), ("category", ca), ("tags", tg), ("include_faq", inc)])
        "meta_description" = mdv ∧
    AG.bGet (.obj [("title", t), ("content", c), ("meta_title", mt2),
        ("meta_description", mdv), ("faq", fa), ("schema_data", sc), ("featured_image", fe),
        ("image_urls", iu), ("category", ca), ("tags", tg), ("include_faq", inc)]) "content"
      = c :=
  ⟨rfl, rfl, rfl, rfl, rfl, rfl⟩

theorem assemble_payload_fields (job : JobRec) (a0 : ArticleRec) (fs : List (String × JVal))
    (imgO : AG.ImageOracle) :
    ∃ ps, (AG.assemble job a0 (.obj fs) imgO).2 = .obj ps ∧
      (∀ k, k ≠ "article_html" → k ≠ "category" → k ≠ "tags" → k ≠ "featured_image" →
        k ≠ "image_urls" → objGet ps k = objGet fs k) ∧
      objGet ps "featured_image" = some (AG.image_split (AG.resolved_image_urls job imgO)).1 ∧
      objGet ps "image_urls" = some (AG.image_split (AG.resolved_image_urls job imgO)).2 ∧
      ((job.include_cta && optTruthy job.cta_url) = false →
        objGet ps "article_html" = objGet fs "article_html") := by
  rw [assemble_payload_eq]
  by_cases hcta : (job.include_cta && optTruthy job.cta_url) = true
  · rw [if_pos hcta]
    refine ⟨_, rfl, ?_, ?_, objGet_objSet_self _ _ _, ?_⟩
    · intro k h1 h2 h3 h4 h5
      rw [objGet_objSet_ne _ _ _ _ (Ne.symm h5), objGet_objSet_ne _ _ _ _ (Ne.symm h4),
          objGet_objSet_ne _ _ _ _ (Ne.symm h3), objGet_objSet_ne _ _ _ _ (Ne.symm h2),
          objGet_objSet_ne _ _ _ _ (Ne.symm h1)]
    · rw [objGet_objSet_ne _ _ _ _ (by decide)]
      exact objGet_objSet_self _ _ _
    · intro hcon
      rw [hcta] at hcon
      cases hcon
  · rw [if_neg hcta]
    refine ⟨_, rfl, ?_, ?_, objGet_objSet_self _ _ _, ?_⟩
    · intro k h1 h2 h3 h4 h5
      rw [objGet_objSet_ne _ _ _ _ (Ne.symm h5), objGet_objSet_ne _ _ _ _ (Ne.symm h4),
          objGet_objSet_ne _ _ _ _ (Ne.symm h3), objGet_objSet_ne _ _ _ _ (Ne.symm h2)]
    · rw [objGet_objSet_ne _ _ _ _ (by decide)]
      exact objGet_objSet_self _ _ _
    · intro hcon
      rw [objGet_objSet_ne _ _ _ _ (by decide), objGet_objSet_ne _ _ _ _ (by decide),
          objGet_objSet_ne _ _ _ _ (by decide), objGet_objSet_ne _ _ _ _ (by decide)]

def jobC4 : JobRec := { topic := "T", include_faq := false }

def rawC4 : JVal :=
  .obj [("title", .str "T"), ("article_html", .str "<p>x</p>"),
        ("meta", .obj [("title", .str "MT"), ("description", .str "MD")]),
        ("faq", .arr [.obj [("q", .str "Q1"), ("a", .str "A1")]]),
        ("schema", .obj [("k", .str "v")])]

def bC4 : JVal :=
  .obj [("title", .str "T"), ("article_html", .str "<p>x</p>"),
        ("meta", .obj [("title", .str "MT"), ("description", .str "MD")]),
        ("faq", .arr [.obj [("q", .str "Q1"), ("a", .str "A1")]]),
        ("schema", .obj [("k", .str "v")]),
        ("outline", .obj [("sections", .arr [])])]

/-- C4 (counterexample): a job with `include_faq = false` whose model
output contains one FAQ entry: the persisted Article row indeed stores an
empty FAQ list, but the payload handed to the dispatcher keeps the model's
FAQ entry, and its `include_faq` flag defaults to `True` — so the
dispatched bundle does not have `faq == []`. -/
theorem C4_counterexample :
    ((AG.pipeline_generate_article true (some jobC4) true true (.ok rawC4) imgNone noLoads
        (.success none) "NOW").article.map ArticleRec.faq_json) = some (.arr []) ∧
    ((AG.pipeline_generate_article true (some jobC4) true true (.ok rawC4) imgNone noLoads
        (.success none) "NOW").dispatched.map (fun d => AG.bGet d "faq"))
      = some (.arr [.obj [("q", .str "Q1"), ("a", .str "A1")]]) ∧
    ((AG.pipeline_generate_article true (some jobC4) true true (.ok rawC4) imgNone noLoads
        (.success none) "NOW").dispatched.map (fun d => AG.bGet d "include_faq"))
      = some (.bool true) :=
  ⟨rfl, rfl, rfl⟩

/-- C4 (amended): when `include_faq = false` and generation succeeds, the
persisted Article row has `faq_json == []` regardless of the model output;
but the payload handed to the dispatcher keeps the bundle's normalized
`faq` unchanged, and the dispatched `include_faq` flag is always `True`
because the pipeline never writes that key. -/
theorem C4_faq_cleared_in_article_only (job : JobRec) (raw : Except PyErr JVal)
    (imgO : AG.ImageOracle) (loads : String → Option JVal) (wp : WH.WpOutcome)
    (now : String) (b : JVal)
    (hfaq : job.include_faq = false)
    (hok : AG.generate_payload raw job.topic (job.language.getD "de") now = .ok b) :
    (∀ r, (AG.pipeline_generate_article true (some job) true true raw imgO loads wp now).article
        = some r → r.faq_json = .arr []) ∧
    (∀ d, (AG.pipeline_generate_article true (some job) true true raw imgO loads wp now).dispatched
        = some d →
      AG.bGet d "faq" = AG.bGet b "faq" ∧ AG.bGet d "include_faq" = .bool true) := by
  rw [pipeline_ok_eval job raw imgO loads wp now b hok]
  obtain ⟨r0, hraw, hn⟩ := generate_payload_ok_inv raw job.topic (job.language.getD "de") now b hok
  obtain ⟨fs, H, mt, md, -, -, -, -, hb⟩ :=
    normalize_result_ok_inv r0 job.topic (job.language.getD "de") now b hn
  obtain ⟨xs, hxs⟩ := resolve_faq_shape (AG.unwrap fs)
  constructor
  · intro r hr
    obtain ⟨h1, -, -, -⟩ := send_article_fields loads _ _ wp r hr
    rw [h1]
    show (if job.include_faq = true then AG.bGet b "faq" else JVal.arr []) = .arr []
    rw [hfaq, if_neg (by decide)]
  · intro d hd
    have hbuild := send_sent_inv loads _ _ wp d hd
    obtain ⟨mt2, featured, contentImgs, hfc, hdEq⟩ :=
      build_article_payload_ok_inv loads _ _ d hbuild
    subst hdEq
    rw [hb, mkBundle_eq_obj]
    obtain ⟨ps, hps, hgen, -, -⟩ :=
      assemble_payload_fields job (AG.article0_of job)
        (bundleFields
          (AG.resolve_title (AG.get_ci (AG.unwrap fs) ["title", "titel", "headline"]) H job.topic)
          H mt md (AG.resolve_faq (AG.unwrap fs))
          (AG.resolve_schema (AG.unwrap fs)
            (AG.resolve_title (AG.get_ci (AG.unwrap fs) ["title", "titel", "headline"]) H job.topic)
            (job.language.getD "de") now)
          (extract_outline H)) imgO
    rw [hps, wp_pf_obj]
    constructor
    · rw [(bGet_build_literal _ _ _ _ _ _ _ _ _ _ _).1]
      simp only [WH.wp_faq]
      rw [hgen "faq" (by decide) (by decide) (by decide) (by decide) (by decide)]
      rw [(bundleFields_get _ _ _ _ _ _ _).1, hxs]
      rfl
    · rw [(bGet_build_literal _ _ _ _ _ _ _ _ _ _ _).2.1]
      rw [hgen "include_faq" (by decide) (by decide) (by decide) (by decide) (by decide),
        (bundleFields_get _ _ _ _ _ _ _).2.1]
      rfl

theorem C4_faq_cleared_in_article_only_witness :
    jobC4.include_faq = false ∧
    (∀ d, (AG.pipeline_generate_article true (some jobC4) true true (.ok rawC4) imgNone noLoads
        (.success none) "NOW").dispatched = some d →
      AG.bGet d "faq" = AG.bGet bC4 "faq" ∧ AG.bGet d "include_faq" = .bool true) :=
  ⟨rfl,
   (C4_faq_cleared_in_article_only jobC4 (.ok rawC4) imgNone noLoads (.success none) "NOW" bC4
      rfl rfl).2⟩

theorem list_filter_all (p : JVal → Bool) (ys : List JVal) :
    (ys.filter p).all p = true := by
  induction ys with
  | nil => rfl
  | cons y ys ih =>
    cases hy : p y with
    | true => simp [List.filter_cons, hy, ih]
    | false => simp [List.filter_cons, hy, ih]

theorem wp_content1_empty (ps : List (String × JVal))
    (hid2 : objGetD ps "image_urls" = .arr []) : WH.wp_content1 ps = .arr [] := by
  have h1 : WH.wp_content0 ps = .arr [] := by
    unfold WH.wp_content0
    rw [hid2]
    rfl
  unfold WH.wp_content1
  rw [h1]
  rw [show truthy (JVal.arr []) = false from rfl, Bool.and_false, if_neg (by decide)]

theorem wp_images_split_excl (loads : String → Option JVal) (a : ArticleRec)
    (ps : List (String × JVal)) (urls : List String) (featured contentImgs : JVal)
    (hf : objGet ps "featured_image" = some (AG.image_split urls).1)
    (hi : objGet ps "image_urls" = some (AG.image_split urls).2)
    (h : WH.wp_images loads a ps = .ok (featured, contentImgs))
    (ha : a.image_urls_json = .arr (urls.map .str)) :
    ∃ l, contentImgs = .arr l ∧ l.all (fun x => !jeq x featured) = true := by
  have hfd : objGetD ps "featured_image" = (AG.image_split urls).1 := by
    unfold objGetD
    rw [hf]
    rfl
  have hid : objGetD ps "image_urls" = (AG.image_split urls).2 := by
    unfold objGetD
    rw [hi]
    rfl
  rcases urls with _ | ⟨u, _ | ⟨v, rest⟩⟩
  · have h0 : WH.wp_featured0 ps = .null := by
      unfold WH.wp_featured0
      rw [hfd]
      rfl
    have h1 : WH.wp_content1 ps = .arr [] := wp_content1_empty ps hid
    have hw : WH.wp_images loads a ps = .ok (.null, .arr []) := by
      unfold WH.wp_images
      rw [h0, ha, h1]
      rfl
    rw [hw, Except.ok.injEq, Prod.mk.injEq] at h
    exact ⟨[], h.2.symm, rfl⟩
  · by_cases hu : u = ""
    · subst hu
      have h0 : WH.wp_featured0 ps = .null := by
        unfold WH.wp_featured0
        rw [hfd]
        rfl
      have hw : WH.wp_images loads a ps = .ok (.str "", .arr []) := by
        unfold WH.wp_images
        rw [h0, ha]
        rfl
      rw [hw, Except.ok.injEq, Prod.mk.injEq] at h
      exact ⟨[], h.2.symm, rfl⟩
    · have h0 : WH.wp_featured0 ps = .str u := by
        unfold WH.wp_featured0
        rw [hfd]
        show (if (u != "") = true then JVal.str u else .null) = .str u
        rw [if_pos (bne_iff_ne.mpr hu)]
      have h1 : WH.wp_content1 ps = .arr [] := wp_content1_empty ps hid
      have hw : WH.wp_images loads a ps = .ok (.str u, .arr []) := by
        unfold WH.wp_images
        rw [h0, h1]
        rfl
      rw [hw, Except.ok.injEq, Prod.mk.injEq] at h
      exact ⟨[], h.2.symm, rfl⟩
  · by_cases hu : u = ""
    · subst hu
      have h0 : WH.wp_featured0 ps = .null := by
        unfold WH.wp_featured0
        rw [hfd]
        rfl
      have hw : WH.wp_images loads a ps
          = .ok (.str "", .arr (((v :: rest).map JVal.str).filter
              (fun x => !jeq x (.str "")))) := by
        unfold WH.wp_images
        rw [h0, ha]
        rfl
      rw [hw, Except.ok.injEq, Prod.mk.injEq] at h
      refine ⟨_, h.2.symm, ?_⟩
      rw [← h.1]
      exact list_filter_all _ _
    · have h0 : WH.wp_featured0 ps = .str u := by
        unfold WH.wp_featured0
        rw [hfd]
        show (if (u != "") = true then JVal.str u else .null) = .str u
        rw [if_pos (bne_iff_ne.mpr hu)]
      have h1 : WH.wp_content0 ps = .arr ((v :: rest).map JVal.str) := by
        unfold WH.wp_content0
        rw [hid]
        rfl
      have h2 : WH.wp_content1 ps
          = .arr (((v :: rest).map JVal.str).filter (fun x => !jeq x (.str u))) := by
        unfold WH.wp_content1
        rw [h0, h1]
        rw [show truthy (JVal.arr ((v :: rest).map JVal.str)) = true from rfl, Bool.and_true]
        rw [show truthy (JVal.str u) = (u != "") from rfl]
        rw [if_pos (bne_iff_ne.mpr hu)]
        rfl
      have hw : WH.wp_images loads a ps
          = .ok (.str u, .arr (((v :: rest).map JVal.str).filter
              (fun x => !jeq x (.str u)))) := by
        unfold WH.wp_images
        rw [h0, h2]
        rfl
      rw [hw, Except.ok.injEq, Prod.mk.injEq] at h
      refine ⟨_, h.2.symm, ?_⟩
      rw [← h.1]
      exact list_filter_all _ _

/-- C6: the image presentation rule (article_generator.py lines 368-389 and
webhook_service.py lines 168-186): zero resolved images leave no featured
image and an empty content list; exactly one image becomes the featured
image with an empty content list; two or more images make the first the
featured image and keep the remainder, in order, as content images; and in
every payload the run dispatches, the featured image value never appears
among the content images. -/
theorem C6_image_presentation (job : JobRec) (raw : Except PyErr JVal)
    (imgO : AG.ImageOracle) (loads : String → Option JVal) (wp : WH.WpOutcome)
    (now : String) (b : JVal)
    (hok : AG.generate_payload raw job.topic (job.language.getD "de") now = .ok b) :
    (AG.resolved_image_urls job imgO = [] →
      AG.image_split (AG.resolved_image_urls job imgO) = (.null, .arr [])) ∧
    (∀ u, AG.resolved_image_urls job imgO = [u] →
      AG.image_split (AG.resolved_image_urls job imgO) = (.str u, .arr [])) ∧
    (∀ u v rest, AG.resolved_image_urls job imgO = u :: v :: rest →
      AG.image_split (AG.resolved_image_urls job imgO)
        = (.str u, .arr ((v :: rest).map .str))) ∧
    (∀ d, (AG.pipeline_generate_article true (some job) true true raw imgO loads wp
        now).dispatched = some d →
      ∃ l, AG.bGet d "image_urls" = .arr l ∧
        l.all (fun x => !jeq x (AG.bGet d "featured_image")) = true) := by
  refine ⟨fun h => by rw [h]; rfl, fun u h => by rw [h]; rfl,
    fun u v rest h => by rw [h]; rfl, ?_⟩
  intro d hd
  rw [pipeline_ok_eval job raw imgO loads wp now b hok] at hd
  have hbuild := send_sent_inv loads _ _ wp d hd
  obtain ⟨r0, hraw, hn⟩ := generate_payload_ok_inv raw job.topic (job.language.getD "de") now b hok
  obtain ⟨fs, H, mt, md, -, -, -, -, hb⟩ :=
    normalize_result_ok_inv r0 job.topic (job.language.getD "de") now b hn
  rw [hb, mkBundle_eq_obj] at hbuild
  obtain ⟨mt2, featured, contentImgs, hfc, hdEq⟩ :=
    build_article_payload_ok_inv loads _ _ d hbuild
  subst hdEq
  rw [(bGet_build_literal _ _ _ _ _ _ _ _ _ _ _).2.2.2.1,
      (bGet_build_literal _ _ _ _ _ _ _ _ _ _ _).2.2.1]
  obtain ⟨ps, hps, -, hfeat, hiurls, -⟩ :=
    assemble_payload_fields job (AG.article0_of job)
      (bundleFields
        (AG.resolve_title (AG.get_ci (AG.unwrap fs) ["title", "titel", "headline"]) H job.topic)
        H mt md (AG.resolve_faq (AG.unwrap fs))
        (AG.resolve_schema (AG.unwrap fs)
          (AG.resolve_title (AG.get_ci (AG.unwrap fs) ["title", "titel", "headline"]) H job.topic)
          (job.language.getD "de") now)
        (extract_outline H)) imgO
  rw [hps, wp_pf_obj] at hfc
  exact wp_images_split_excl loads _ ps (AG.resolved_image_urls job imgO) featured contentImgs
    hfeat hiurls hfc rfl

def jobC6 : JobRec := { topic := "T", user_images := some ["a", "b", "c"] }

def rawC6 : JVal :=
  .obj [("title", .str "T"), ("article_html", .str "<p>x</p>"),
        ("meta", .obj [("title", .str "MT"), ("description", .str "MD")]),
        ("faq", .arr []), ("schema", .obj [("k", .str "v")])]

def bC6 : JVal :=
  .obj [("title", .str "T"), ("article_html", .str "<p>x</p>"),
        ("meta", .obj [("title", .str "MT"), ("description", .str "MD")]),
        ("faq", .arr []), ("schema", .obj [("k", .str "v")]),
        ("outline", .obj [("sections", .arr [])])]

theorem C6_image_presentation_witness :
    AG.resolved_image_urls jobC6 imgNone = ["a", "b", "c"] ∧
    AG.image_split (AG.resolved_image_urls jobC6 imgNone)
      = (.str "a", .arr [.str "b", .str "c"]) :=
  ⟨rfl,
   (C6_image_presentation jobC6 (.ok rawC6) imgNone noLoads (.success none) "NOW" bC6
      rfl).2.2.1 "a" "b" ["c"] rfl⟩

def jobC5 : JobRec :=
  { topic := "Zelte für Wintercamping"
    language := some "de"
    length := some "short"
    include_faq := true
    images := true
    requested_images := some 2 }

def imgC5 : AG.ImageOracle :=
  { imageTopic := .ok (some "winter tent")
    pexels := some "https://img.example/1.jpg"
    genImage := .ok none }

def rawC5 : JVal :=
  .obj [("title", .str "Zelte für Wintercamping"),
        ("article_html", .str "<h2>Einleitung</h2><p>Warm bleiben.</p>"),
        ("meta", .obj [("title", .str "Zelte für Wintercamping"),
                       ("description", .str "Alles über Wintercamping-Zelte.")]),
        ("faq", .arr [.obj [("q", .str "Wie warm?"), ("a", .str "Sehr.")]]),
        ("schema", .obj [("k", .str "v")])]

def bC5 : JVal :=
  .obj [("title", .str "Zelte für Wintercamping"),
        ("article_html", .str "<h2>Einleitung</h2><p>Warm bleiben.</p>"),
        ("meta", .obj [("title", .str "Zelte für Wintercamping"),
                       ("description", .str "Alles über Wintercamping-Zelte.")]),
        ("faq", .arr [.obj [("q", .str "Wie warm?"), ("a", .str "Sehr.")]]),
        ("schema", .obj [("k", .str "v")]),
        ("outline", .obj [("sections",
          .arr [.obj [("h2", .str "Einleitung"), ("h3s", .arr [])]])])]

/-- C5 (counterexample): the spec scenario (topic "Zelte für Wintercamping",
language de, length short, include_faq True, requested_images 2) run
through the pipeline with a Pexels hit: `generate_images` returns
`urls[:1]`, so only ONE image is ever sourced; it becomes the featured
image and the dispatched `image_urls` (the content images) is EMPTY, not
of length 1 as claimed. -/
theorem C5_counterexample :
    ((AG.pipeline_generate_article true (some jobC5) true true (.ok rawC5) imgC5 noLoads
        (.success none) "NOW").dispatched.map (fun d => AG.bGet d "image_urls"))
      = some (.arr []) ∧
    ((AG.pipeline_generate_article true (some jobC5) true true (.ok rawC5) imgC5 noLoads
        (.success none) "NOW").dispatched.map (fun d => AG.bGet d "featured_image"))
      = some (.str "https://img.example/1.jpg") ∧
    ((AG.pipeline_generate_article true (some jobC5) true true (.ok rawC5) imgC5 noLoads
        (.success none) "NOW").article.map ArticleRec.image_urls_json)
      = some (.arr [.str "https://img.example/1.jpg"]) :=
  ⟨rfl, rfl, rfl⟩

theorem generate_images_pexels (topic : String) (o : AG.ImageOracle) (url : String)
    (hpx : o.pexels = some url) (hurl : url ≠ "") :
    AG.generate_images topic 2 o = [url] := by
  unfold AG.generate_images
  rw [hpx, if_neg (by decide)]
  show (if (url != "") = true then List.take 1 [url] else AG.generate_images.genFallback o)
      = [url]
  rw [if_pos (bne_iff_ne.mpr hurl)]
  rfl

theorem resolved_two_pexels (job : JobRec) (imgO : AG.ImageOracle) (url : String)
    (huser : job.user_images = none) (himg : job.images = true)
    (hreq : job.requested_images = some 2) (hpx : imgO.pexels = some url)
    (hurl : url ≠ "") :
    AG.resolved_image_urls job imgO = [url] := by
  unfold AG.resolved_image_urls
  rw [huser, himg, hreq]
  show (if (true && ((2 : Int) != 0 && (2 : Int) > 0)) = true then
      AG.generate_images job.topic ((some (2 : Int)).getD 0) imgO else []) = [url]
  rw [if_pos (by decide)]
  exact generate_images_pexels job.topic imgO url hpx hurl

theorem py_orV_truthy (a b : JVal) (h : truthy a = true) : py_orV a b = a := by
  unfold py_orV
  rw [if_pos h]

/-- C5 (amended): in the spec scenario (include_faq on, no user images, AI
images requested with a count of 2, no CTA, and a Pexels hit returning a
non-empty URL) a successful run sources exactly ONE image: the Article row
stores that single URL, and the dispatched payload carries it as
`featured_image` with an EMPTY `image_urls` content list (not length 1);
the dispatched `faq` stays non-empty, the `content` is the non-blank
normalized HTML containing its `<h2>`, and any string-typed
`meta_description` is at most 155 characters. -/
theorem C5_short_de_scenario (job : JobRec) (raw : Except PyErr JVal)
    (imgO : AG.ImageOracle) (loads : String → Option JVal) (wp : WH.WpOutcome)
    (now : String) (b : JVal) (url : String)
    (hfaq : job.include_faq = true)
    (hcta : (job.include_cta && optTruthy job.cta_url) = false)
    (huser : job.user_images = none)
    (himg : job.images = true)
    (hreq : job.requested_images = some 2)
    (hpx : imgO.pexels = some url)
    (hurl : url ≠ "")
    (hok : AG.generate_payload raw job.topic (job.language.getD "de") now = .ok b)
    (hfaqNE : ∃ q qs, AG.bGet b "faq" = .arr (q :: qs))
    (hh2 : strContains (pyLower (py_str (AG.bGet b "article_html"))) "<h2" = true) :
    AG.resolved_image_urls job imgO = [url] ∧
    (∀ r, (AG.pipeline_generate_article true (some job) true true raw imgO loads wp
        now).article = some r → r.image_urls_json = .arr [.str url]) ∧
    (∀ d, (AG.pipeline_generate_article true (some job) true true raw imgO loads wp
        now).dispatched = some d →
      AG.bGet d "featured_image" = .str url ∧
      AG.bGet d "image_urls" = .arr [] ∧
      (∃ q qs, AG.bGet d "faq" = .arr (q :: qs)) ∧
      (∃ Hs, AG.bGet d "content" = .str Hs ∧ strContains (pyLower Hs) "<h2" = true ∧
        pyStrip Hs ≠ "") ∧
      (∀ s, AG.bGet d "meta_description" = .str s → s.data.length ≤ 155)) := by
  have hA := resolved_two_pexels job imgO url huser himg hreq hpx hurl
  rw [pipeline_ok_eval job raw imgO loads wp now b hok]
  refine ⟨hA, ?_, ?_⟩
  · intro r hr
    obtain ⟨-, h2i, -, -⟩ := send_article_fields loads _ _ wp r hr
    rw [h2i]
    show JVal.arr ((AG.resolved_image_urls job imgO).map JVal.str) = .arr [.str url]
    rw [hA]
    rfl
  · intro d hd
    have hbuild := send_sent_inv loads _ _ wp d hd
    obtain ⟨r0, hraw, hn⟩ :=
      generate_payload_ok_inv raw job.topic (job.language.getD "de") now b hok
    obtain ⟨fs, H, mt, md, -, hget, hne, hbm, hb⟩ :=
      normalize_result_ok_inv r0 job.topic (job.language.getD "de") now b hn
    rw [hb, mkBundle_eq_obj] at hbuild
    obtain ⟨mt2, featured, contentImgs, hfc, hdEq⟩ :=
      build_article_payload_ok_inv loads _ _ d hbuild
    subst hdEq
    obtain ⟨ps, hps, hgen, hfeat, hiurls, hcta2⟩ :=
      assemble_payload_fields job (AG.article0_of job)
        (bundleFields
          (AG.resolve_title (AG.get_ci (AG.unwrap fs) ["title", "titel", "headline"]) H
            job.topic)
          H mt md (AG.resolve_faq (AG.unwrap fs))
          (AG.resolve_schema (AG.unwrap fs)
            (AG.resolve_title (AG.get_ci (AG.unwrap fs) ["title", "titel", "headline"]) H
              job.topic)
            (job.language.getD "de") now)
          (extract_outline H)) imgO
    rw [hps, wp_pf_obj] at hfc ⊢
    rw [hA] at hfeat hiurls
    have hfd : objGetD ps "featured_image" = .str url := by
      unfold objGetD
      rw [hfeat]
      rfl
    have hid2 : objGetD ps "image_urls" = .arr [] := by
      unfold objGetD
      rw [hiurls]
      rfl
    have h0 : WH.wp_featured0 ps = .str url := by
      unfold WH.wp_featured0
      rw [hfd]
      show (if (url != "") = true then JVal.str url else .null) = .str url
      rw [if_pos (bne_iff_ne.mpr hurl)]
    have h1 : WH.wp_content1 ps = .arr [] := wp_content1_empty ps hid2
    unfold WH.wp_images at hfc
    rw [h0, h1] at hfc
    rw [show isNull (JVal.str url) = false from rfl] at hfc
    rw [if_neg (by decide)] at hfc
    rw [Except.ok.injEq, Prod.mk.injEq] at hfc
    obtain ⟨hfe, hce⟩ := hfc
    refine ⟨?_, ?_, ?_, ?_, ?_⟩
    · rw [(bGet_build_literal _ _ _ _ _ _ _ _ _ _ _).2.2.1]
      exact hfe.symm
    · rw [(bGet_build_literal _ _ _ _ _ _ _ _ _ _ _).2.2.2.1]
      exact hce.symm
    · obtain ⟨q, qs, hqq⟩ := hfaqNE
      rw [hb, mkBundle_eq_obj] at hqq
      refine ⟨q, qs, ?_⟩
      rw [(bGet_build_literal _ _ _ _ _ _ _ _ _ _ _).1]
      unfold WH.wp_faq
      have hF : AG.resolve_faq (AG.unwrap fs) = .arr (q :: qs) := hqq
      rw [hgen "faq" (by decide) (by decide) (by decide) (by decide) (by decide),
          (bundleFields_get _ _ _ _ _ _ _).1, hF]
    · have hHne : H ≠ "" := fun hc => hne (by rw [hc]; rfl)
      refine ⟨H, ?_, ?_, hne⟩
      · rw [(bGet_build_literal _ _ _ _ _ _ _ _ _ _ _).2.2.2.2.2]
        unfold WH.wp_content
        have hah : objGetD ps "article_html" = .str H := by
          unfold objGetD
          rw [hcta2 hcta, (bundleFields_get _ _ _ _ _ _ _).2.2.1]
          rfl
        rw [hah, py_orV_truthy (JVal.str H) _ (bne_iff_ne.mpr hHne)]
      · rw [hb, mkBundle_eq_obj] at hh2
        exact hh2
    · rw [(bGet_build_literal _ _ _ _ _ _ _ _ _ _ _).2.2.2.2.1]
      intro s hs
      have hmeta : WH.wp_meta ps = [("title", mt), ("description", md)] := by
        unfold WH.wp_meta
        rw [hgen "meta" (by decide) (by decide) (by decide) (by decide) (by decide),
            (bundleFields_get _ _ _ _ _ _ _).2.2.2]
      have hdescr : objGetD (WH.wp_meta ps) "description" = md := by
        rw [hmeta]
        rfl
      obtain ⟨-, -, hCmd, hDmd⟩ := build_meta_ok_inv (AG.unwrap fs) _ mt md hbm
      unfold WH.wp_meta_description at hs
      rw [hdescr, py_orV_truthy _ _ hCmd] at hs
      rw [hs] at hDmd
      rw [show py_slice (JVal.str s) 155 = .ok (.str (String.mk (s.data.take 155))) from rfl,
          Except.ok.injEq, JVal.str.injEq] at hDmd
      have hlen : s.data.take 155 = s.data := congrArg String.data hDmd
      have hlt := List.length_take_le 155 s.data
      rw [hlen] at hlt
      exact hlt

theorem C5_short_de_scenario_witness :
    jobC5.include_faq = true ∧
    AG.resolved_image_urls jobC5 imgC5 = ["https://img.example/1.jpg"] :=
  ⟨rfl,
   (C5_short_de_scenario jobC5 (.ok rawC5) imgC5 noLoads (.success none) "NOW" bC5
      "https://img.example/1.jpg" rfl rfl rfl rfl rfl rfl (by decide) rfl
      ⟨.obj [("q", .str "Wie warm?"), ("a", .str "Sehr.")], [], rfl⟩ rfl).1⟩
